import Mathlib

/-!
# SMC dispatch subsystem: shallow embedding and verified properties

Sources embedded here:

* `system/public/zircon/syscalls/smc_defs.h`: the call-number bit layout and
  the result-code vocabulary;
* `kernel/object/smc_dispatcher.cpp`: the request/result rendezvous
  (`NotifyUser`, `WaitForResult`, `ReadArgs`, `SetResult`), the shared-memory
  self-test (`write_shm`, `verify_shm`, `invoke_smc_test`), the routing
  entry points `notify_smc_service` and `notify_nop_thread`, the per-CPU NOP
  channel (`WriteNopRequest`, `ReadNopRequest`, `CancelReadNopRequest`), and
  creation and destruction (`Create`, the destructor).

The embedding is of the build with `WITH_LIB_SM` (hence `ENABLE_SMC_TEST`)
defined, on arm64 (LP64: `int` is 32 bits, `long` and `size_t` are 64 bits).
Unsigned machine integers are `Nat` reduced modulo the width where a wrap can
occur, `long` values are `Int`, a pointer that may be null is an `Option` of
the record it points to, and every member function takes the object state and
returns the new one.  Each call runs under the dispatcher mutex and is one
atomic step.
-/

namespace Smc

/-! ## Machine integers -/

/-- Reduction to an unsigned 32-bit value (`uint32_t`). -/
def u32 (x : Nat) : Nat := x % 2 ^ 32

/-- Reduction to an unsigned 8-bit value (`uint8_t`). -/
def u8 (x : Nat) : Nat := x % 2 ^ 8

/-- Bitwise complement `~x` of a `uint32_t`. -/
def u32_not (x : Nat) : Nat := x ^^^ 0xFFFFFFFF

/-- Conversion of an `unsigned int` value to `long` where `long` has 64 bits:
the value is zero-extended, so it is kept as it is. -/
def long_of_unsigned_int (x : Nat) : Int := Int.ofNat (u32 x)

/-! ## `smc_defs.h`: call numbers -/

def SMC_NUM_ENTITIES : Nat := 64
def SMC_NUM_ARGS : Nat := 4
def SMC_NUM_PARAMS : Nat := SMC_NUM_ARGS - 1

def SMC_IS_FASTCALL (smc_nr : Nat) : Nat := smc_nr &&& 0x80000000
def SMC_IS_SMC64 (smc_nr : Nat) : Nat := smc_nr &&& 0x40000000
def SMC_ENTITY (smc_nr : Nat) : Nat := (smc_nr &&& 0x3F000000) >>> 24
def SMC_FUNCTION (smc_nr : Nat) : Nat := smc_nr &&& 0x0000FFFF

/-- The macro `SMC_NR(entity, fn, fastcall, smc64)`, each shifted field kept
within 32 bits. -/
def SMC_NR (entity fn fastcall smc64 : Nat) : Nat :=
  ((u32 ((fastcall &&& 0x1) <<< 31) ||| u32 ((smc64 &&& 0x1) <<< 30)) |||
    u32 ((entity &&& 0x3F) <<< 24)) ||| (fn &&& 0xFFFF)

def SMC_FASTCALL_NR (entity fn : Nat) : Nat := SMC_NR entity fn 1 0
def SMC_STDCALL_NR (entity fn : Nat) : Nat := SMC_NR entity fn 0 0
def SMC_FASTCALL64_NR (entity fn : Nat) : Nat := SMC_NR entity fn 1 1
def SMC_STDCALL64_NR (entity fn : Nat) : Nat := SMC_NR entity fn 0 1

def SMC_ENTITY_ARCH : Nat := 0
def SMC_ENTITY_CPU : Nat := 1
def SMC_ENTITY_SIP : Nat := 2
def SMC_ENTITY_OEM : Nat := 3
def SMC_ENTITY_STD : Nat := 4
def SMC_ENTITY_RESERVED : Nat := 5
def SMC_ENTITY_TRUSTED_APP : Nat := 48
def SMC_ENTITY_TRUSTED_OS : Nat := 50
def SMC_ENTITY_LOGGING : Nat := 51
def SMC_ENTITY_SECURE_MONITOR : Nat := 60
def SMC_ENTITY_TEST : Nat := 61

def SMC_SC_WRITE_SHM : Nat := SMC_STDCALL_NR SMC_ENTITY_TEST 0
def SMC_SC_VERIFY_SHM : Nat := SMC_STDCALL_NR SMC_ENTITY_TEST 1

/-! ## `smc_defs.h`: result codes, as the `long` the routing functions return

The literals `-2` .. `-15` have type `int` and keep their value when they are
converted to `long`.  The literal `0xFFFFFFFF` does not fit `int`, so its type
is `unsigned int`, and its conversion to a 64-bit `long` zero-extends. -/

def SM_OK : Int := 0
def SM_ERR_UNDEFINED_SMC : Int := long_of_unsigned_int 0xFFFFFFFF
def SM_ERR_INVALID_PARAMETERS : Int := -2
def SM_ERR_INTERRUPTED : Int := -3
def SM_ERR_UNEXPECTED_RESTART : Int := -4
def SM_ERR_BUSY : Int := -5
def SM_ERR_INTERLEAVED_SMC : Int := -6
def SM_ERR_INTERNAL_FAILURE : Int := -7
def SM_ERR_NOT_SUPPORTED : Int := -8
def SM_ERR_NOT_ALLOWED : Int := -9
def SM_ERR_END_OF_INPUT : Int := -10
def SM_ERR_PANIC : Int := -11
def SM_ERR_FIQ_INTERRUPTED : Int := -12
def SM_ERR_CPU_IDLE : Int := -13
def SM_ERR_NOP_INTERRUPTED : Int := -14
def SM_ERR_NOP_DONE : Int := -15

/-- The error vocabulary of `smc_defs.h` in the order of the header,
`SM_ERR_UNDEFINED_SMC` first. -/
def sm_error_codes : List Int :=
  [SM_ERR_UNDEFINED_SMC, SM_ERR_INVALID_PARAMETERS, SM_ERR_INTERRUPTED,
   SM_ERR_UNEXPECTED_RESTART, SM_ERR_BUSY, SM_ERR_INTERLEAVED_SMC,
   SM_ERR_INTERNAL_FAILURE, SM_ERR_NOT_SUPPORTED, SM_ERR_NOT_ALLOWED,
   SM_ERR_END_OF_INPUT, SM_ERR_PANIC, SM_ERR_FIQ_INTERRUPTED, SM_ERR_CPU_IDLE,
   SM_ERR_NOP_INTERRUPTED, SM_ERR_NOP_DONE]

/-! ## Kernel status codes (`zircon/errors.h`, not part of the sources at hand;
the values are those of the Zircon ABI) -/

def ZX_OK : Int := 0
def ZX_ERR_INTERNAL : Int := -1
def ZX_ERR_NOT_SUPPORTED : Int := -2
def ZX_ERR_NO_MEMORY : Int := -4
def ZX_ERR_INVALID_ARGS : Int := -10
def ZX_ERR_BAD_STATE : Int := -20
def ZX_ERR_SHOULD_WAIT : Int := -22
def ZX_ERR_ALREADY_EXISTS : Int := -26

/-! ## Data model -/

/-- The argument record `smc32_args_t`: a 32-bit call number and
`SMC_NUM_PARAMS` parameter words. -/
structure smc32_args_t where
  smc_nr : Nat
  params : Nat × Nat × Nat
  deriving DecidableEq, Repr

/-- The member `ns_shm` of `zx_info_smc_t`. -/
structure zx_info_ns_shm_t where
  base_phys : Nat
  size : Nat
  use_cache : Bool
  deriving DecidableEq, Repr

structure zx_info_smc_t where
  ns_shm : zx_info_ns_shm_t
  deriving DecidableEq, Repr

/-- Ways in which a call does not return a value: the calling thread stays
parked on an event that nobody signals, a `DEBUG_ASSERT` fails, a null pointer
is read, or a loop does not end within the steps granted. -/
inductive Fault where
  | blocked
  | assert_failed
  | null_deref
  | out_of_fuel
  deriving DecidableEq, Repr

/-- Modelled from the spec: `event_t` of `kernel/event.h` is not among the
sources; the spec calls it a one-shot, auto-resetting synchronization signal,
each successful wake consuming exactly one pending signal.  Every event of the
dispatcher is initialised with `EVENT_FLAG_AUTOUNSIGNAL`. -/
structure event_t where
  signaled : Bool
  deriving DecidableEq, Repr

/-- Modelled from the spec: `event_init(e, initial, EVENT_FLAG_AUTOUNSIGNAL)`. -/
def event_init (initial : Bool) : event_t := { signaled := initial }

/-- Modelled from the spec: `event_signal_etc(e, reschedule, result)` leaves
one signal pending.  The status `result` goes to a thread that is parked on
the event at that moment; see `event_wait_deadline`. -/
def event_signal_etc (_e : event_t) (_result : Int) : event_t :=
  { signaled := true }

/-- Modelled from the spec: `event_signal(e, reschedule)` is
`event_signal_etc` with the status `ZX_OK`. -/
def event_signal (e : event_t) : event_t := event_signal_etc e ZX_OK

/-- Modelled from the spec: `event_wait_deadline(e, ZX_TIME_INFINITE, true)`.
A pending signal is consumed and the wait returns `ZX_OK`.  With no signal
pending the thread parks: `wake` is the status with which the parked thread is
released (by an interruption, or by a signal that carries a status), and with
`none` the wait never ends. -/
def event_wait_deadline (e : event_t) (wake : Option Int) : Except Fault (Int × event_t) :=
  if e.signaled then .ok (ZX_OK, { e with signaled := false })
  else match wake with
    | some status => .ok (status, e)
    | none => .error Fault.blocked

/-- Constants of the build that the sources at hand do not define: the two
signal masks of `zircon/types.h` and the number of CPU slots. -/
structure Config where
  ZX_SMC_READABLE : Nat
  ZX_SMC_SIGNALED : Nat
  SMP_MAX_CPUS : Nat
  deriving DecidableEq, Repr

/-- The two signal masks are non-empty, disjoint 32-bit masks. -/
def Config.WellFormed (c : Config) : Prop :=
  c.ZX_SMC_READABLE < 2 ^ 32 ∧ c.ZX_SMC_SIGNALED < 2 ^ 32 ∧
  c.ZX_SMC_READABLE ≠ 0 ∧ c.ZX_SMC_SIGNALED ≠ 0 ∧
  c.ZX_SMC_READABLE &&& c.ZX_SMC_SIGNALED = 0

instance (c : Config) : Decidable c.WellFormed := by
  unfold Config.WellFormed; infer_instance

/-- The state of an `SmcDispatcher`: the members of the class, the per-CPU NOP
slots and events that `smc_dispatcher.cpp` uses, and `signals`, the signal
state kept by the `Dispatcher` base class. -/
structure SmcDispatcher where
  options : Nat
  smc_args : Option smc32_args_t
  smc_result : Int
  can_serve_next_smc : Bool
  result_event_ : event_t
  smc_info : zx_info_smc_t
  req_nop_args : List smc32_args_t
  req_nop_event_ : List event_t
  signals : Nat
  deriving DecidableEq, Repr

/-- The constructor `SmcDispatcher::SmcDispatcher(options, info)`.  The base
class starts with no signal asserted; the NOP slots, which the constructor
leaves uninitialised, are taken as zero. -/
def SmcDispatcher.ctor (c : Config) (options : Nat) (info : zx_info_smc_t) : SmcDispatcher :=
  { options := options
    smc_args := none
    smc_result := SM_ERR_INTERNAL_FAILURE
    can_serve_next_smc := true
    result_event_ := event_init false
    smc_info := info
    req_nop_args := List.replicate c.SMP_MAX_CPUS { smc_nr := 0, params := (0, 0, 0) }
    req_nop_event_ := List.replicate c.SMP_MAX_CPUS (event_init false)
    signals := 0 }

def SmcDispatcher.GetSmcInfo (d : SmcDispatcher) : zx_info_smc_t := d.smc_info

/-- Modelled from the spec: `GetSignalsStateLocked` of the `Dispatcher` base
class (not among the sources) reads the signal state. -/
def SmcDispatcher.GetSignalsStateLocked (d : SmcDispatcher) : Nat := d.signals

/-- Modelled from the spec: `UpdateStateLocked(clear_mask, set_mask)` of the
`Dispatcher` base class (not among the sources) withdraws the conditions of
the first mask and asserts those of the second: the spec's transitions
Idle to Readable, Readable to Signaled and Signaled to Idle. -/
def SmcDispatcher.UpdateStateLocked (d : SmcDispatcher) (clear_mask set_mask : Nat) :
    SmcDispatcher :=
  { d with signals := (d.signals &&& u32_not clear_mask) ||| set_mask }

/-! ## The rendezvous operations -/

/-- The member `SmcDispatcher::NotifyUser(args)`. -/
def SmcDispatcher.NotifyUser (c : Config) (d : SmcDispatcher) (args : Option smc32_args_t) :
    Int × SmcDispatcher :=
  if d.can_serve_next_smc then
    let d1 := { d with smc_args := args }
    let d2 := d1.UpdateStateLocked 0 c.ZX_SMC_READABLE
    (ZX_OK, { d2 with can_serve_next_smc := false })
  else
    (ZX_ERR_SHOULD_WAIT, d)

/-- The member `SmcDispatcher::WaitForResult()`; `wake` is passed to the wait
on `result_event_`. -/
def SmcDispatcher.WaitForResult (d : SmcDispatcher) (wake : Option Int) :
    Except Fault (Int × SmcDispatcher) :=
  match event_wait_deadline d.result_event_ wake with
  | .error f => .error f
  | .ok (status, e) =>
    let d1 := { d with result_event_ := e }
    if d1.can_serve_next_smc then .error Fault.assert_failed
    else
      .ok (if status = ZX_OK then d1.smc_result else SM_ERR_INTERNAL_FAILURE,
           { d1 with can_serve_next_smc := true })

/-- The member `SmcDispatcher::ReadArgs(args)`; the third component of the
result is the record behind `args` after the call. -/
def SmcDispatcher.ReadArgs (c : Config) (d : SmcDispatcher) (args : Option smc32_args_t) :
    Except Fault (Int × SmcDispatcher × Option smc32_args_t) :=
  match args with
  | none => .ok (ZX_ERR_INVALID_ARGS, d, none)
  | some out =>
    let signals := d.GetSignalsStateLocked
    if signals &&& c.ZX_SMC_READABLE ≠ 0 then
      match d.smc_args with
      | none => .error Fault.null_deref
      | some a => .ok (ZX_OK, d.UpdateStateLocked c.ZX_SMC_READABLE c.ZX_SMC_SIGNALED, some a)
    else
      .ok (ZX_ERR_SHOULD_WAIT, d, some out)

/-- The member `SmcDispatcher::SetResult(result)`. -/
def SmcDispatcher.SetResult (c : Config) (d : SmcDispatcher) (result : Int) :
    Int × SmcDispatcher :=
  let signals := d.GetSignalsStateLocked
  if signals &&& c.ZX_SMC_SIGNALED ≠ 0 then
    let d1 := { d with smc_result := result }
    let d2 := d1.UpdateStateLocked c.ZX_SMC_SIGNALED 0
    (ZX_OK, { d2 with result_event_ := event_signal d2.result_event_ })
  else
    (ZX_ERR_BAD_STATE, d)

/-- READABLE is asserted. -/
def SmcDispatcher.readable (c : Config) (d : SmcDispatcher) : Prop :=
  d.signals &&& c.ZX_SMC_READABLE ≠ 0

/-- SIGNALED is asserted. -/
def SmcDispatcher.signaled (c : Config) (d : SmcDispatcher) : Prop :=
  d.signals &&& c.ZX_SMC_SIGNALED ≠ 0

instance (c : Config) (d : SmcDispatcher) : Decidable (d.readable c) := by
  unfold SmcDispatcher.readable; infer_instance

instance (c : Config) (d : SmcDispatcher) : Decidable (d.signaled c) := by
  unfold SmcDispatcher.signaled; infer_instance

/-- The Idle state of the handshake: the gate is open and neither condition is
asserted. -/
def SmcDispatcher.Idle (c : Config) (d : SmcDispatcher) : Prop :=
  d.can_serve_next_smc = true ∧ ¬ d.readable c ∧ ¬ d.signaled c

/-- The Readable state of the handshake: a request is queued and not yet
claimed. -/
def SmcDispatcher.Readable (c : Config) (d : SmcDispatcher) : Prop :=
  d.can_serve_next_smc = false ∧ d.readable c ∧ ¬ d.signaled c

instance (c : Config) (d : SmcDispatcher) : Decidable (d.Idle c) := by
  unfold SmcDispatcher.Idle; infer_instance

instance (c : Config) (d : SmcDispatcher) : Decidable (d.Readable c) := by
  unfold SmcDispatcher.Readable; infer_instance

/-! ## Sequences of calls on one dispatcher -/

/-- One call of the rendezvous interface. -/
inductive Call where
  | NotifyUser (args : Option smc32_args_t)
  | ReadArgs (args : Option smc32_args_t)
  | SetResult (result : Int)
  | WaitForResult
  deriving DecidableEq, Repr

/-- The dispatcher after one call.  `WaitForResult` is taken only when a
submission is outstanding (the gate is closed, which only a successful
`NotifyUser` does) and it completes by consuming the pending signal of
`result_event_` (which only a successful `SetResult` raises).  A call that
faults ends the sequence. -/
def step (c : Config) (d : SmcDispatcher) : Call → Option SmcDispatcher
  | .NotifyUser args => some (d.NotifyUser c args).2
  | .ReadArgs args =>
    match d.ReadArgs c args with
    | .ok r => some r.2.1
    | .error _ => none
  | .SetResult result => some (d.SetResult c result).2
  | .WaitForResult =>
    if d.can_serve_next_smc = false ∧ d.result_event_.signaled = true then
      match d.WaitForResult none with
      | .ok r => some r.2
      | .error _ => none
    else none

/-- The dispatcher after a sequence of calls. -/
def run (c : Config) (d : SmcDispatcher) : List Call → Option SmcDispatcher
  | [] => some d
  | call :: rest =>
    match step c d call with
    | some d1 => run c d1 rest
    | none => none

/-- A state reached from a freshly constructed dispatcher. -/
def Reachable (c : Config) (d : SmcDispatcher) : Prop :=
  ∃ (options : Nat) (info : zx_info_smc_t) (calls : List Call),
    run c (SmcDispatcher.ctor c options info) calls = some d

/-! ## The shared-memory self-test

`shm` is the content of the physical range described by `ns_shm`, one list
entry per byte; `map_ok` tells whether `map_shm` obtained a mapping. -/

/-- The loop of `write_shm`: `for (size_t i = 0; i < size; i++)` stores
`(uint8_t)((i & 0xff) ^ 0xaa)` at offset `i`. -/
def write_loop (size : Nat) (shm_va : List Nat) : List Nat :=
  (List.range size).foldl (fun va i => va.set i (u8 ((i &&& 0xff) ^^^ 0xaa))) shm_va

/-- The function `write_shm`: the result code and the region afterwards. -/
def write_shm (map_ok : Bool) (smc_disp : SmcDispatcher) (shm : List Nat) : Int × List Nat :=
  let smc_info := smc_disp.GetSmcInfo
  if map_ok = false then (SM_ERR_INTERNAL_FAILURE, shm)
  else (0, write_loop smc_info.ns_shm.size shm)

/-- The loop of `verify_shm`, from index `i` on.  The index is a `uint32_t`,
so its increment wraps; `fuel` bounds the number of iterations.  The result is
the line traced at the first mismatch (offset, byte found, byte expected), or
`none` when the loop runs to its end. -/
def verify_loop : Nat → Nat → List Nat → Nat → Except Fault (Option (Nat × Nat × Nat))
  | 0, _, _, _ => .error Fault.out_of_fuel
  | fuel + 1, size, shm_va, i =>
    if i < size then
      if shm_va.getD i 0 ≠ (i &&& 0xff) then
        .ok (some (i, shm_va.getD i 0, i &&& 0xff))
      else verify_loop fuel size shm_va (u32 (i + 1))
    else .ok none

/-- The function `verify_shm`: the result code and the traced mismatch. -/
def verify_shm (fuel : Nat) (map_ok : Bool) (smc_disp : SmcDispatcher) (shm : List Nat) :
    Except Fault (Int × Option (Nat × Nat × Nat)) :=
  let smc_info := smc_disp.GetSmcInfo
  if map_ok = false then .ok (SM_ERR_INTERNAL_FAILURE, none)
  else
    match verify_loop fuel smc_info.ns_shm.size shm 0 with
    | .error f => .error f
    | .ok none => .ok (0, none)
    | .ok (some t) => .ok (SM_ERR_INTERNAL_FAILURE, some t)

/-- The function `invoke_smc_test`: the result code and the region
afterwards. -/
def invoke_smc_test (fuel : Nat) (map_ok : Bool) (smc_disp : SmcDispatcher) (shm : List Nat)
    (args : smc32_args_t) : Except Fault (Int × List Nat) :=
  if args.smc_nr = SMC_SC_WRITE_SHM then .ok (write_shm map_ok smc_disp shm)
  else if args.smc_nr = SMC_SC_VERIFY_SHM then
    match verify_shm fuel map_ok smc_disp shm with
    | .error f => .error f
    | .ok r => .ok (r.1, shm)
  else .ok (SM_ERR_UNDEFINED_SMC, shm)

/-! ## Routing -/

/-- The registry pointer `smc_disp` and the shared-memory range. -/
structure Kernel where
  smc_disp : Option SmcDispatcher
  shm : List Nat
  deriving DecidableEq, Repr

/-- What surrounds one routed call: `service` is what the other threads (the
user-space service) do to the dispatcher while the trap path is parked in
`WaitForResult`, `wake` the status that releases a parked wait, `map_ok` and
`fuel` as for the self-test. -/
structure Env where
  service : SmcDispatcher → SmcDispatcher
  wake : Option Int
  map_ok : Bool
  fuel : Nat

/-- Modelled from the spec: `smc_undefined` of `lib/sm` is not among the
sources; the spec has routing fail with the undefined-SMC outcome when no
dispatcher exists. -/
def smc_undefined (_args : smc32_args_t) : Int := SM_ERR_UNDEFINED_SMC

/-- The function `notify_smc_service(args)`: the result code and the kernel
state afterwards. -/
def notify_smc_service (c : Config) (env : Env) (k : Kernel) (args : Option smc32_args_t) :
    Except Fault (Int × Kernel) :=
  match args with
  | none => .ok (SM_ERR_INVALID_PARAMETERS, k)
  | some a =>
    match k.smc_disp with
    | none => .ok (smc_undefined a, k)
    | some d =>
      if SMC_ENTITY a.smc_nr = SMC_ENTITY_TEST then
        match invoke_smc_test env.fuel env.map_ok d k.shm a with
        | .error f => .error f
        | .ok r => .ok (r.1, { k with shm := r.2 })
      else
        let r := d.NotifyUser c (some a)
        if r.1 ≠ ZX_OK then .ok (SM_ERR_BUSY, { k with smc_disp := some r.2 })
        else
          match (env.service r.2).WaitForResult env.wake with
          | .error f => .error f
          | .ok w => .ok (w.1, { k with smc_disp := some w.2 })

/-- A configuration used to evaluate the definitions on concrete inputs:
READABLE is bit 0, SIGNALED is bit 3, four CPU slots. -/
def sampleConfig : Config := { ZX_SMC_READABLE := 1, ZX_SMC_SIGNALED := 8, SMP_MAX_CPUS := 4 }

/-- A fresh dispatcher over a 4-byte shared-memory range, for evaluation. -/
def sampleDispatcher : SmcDispatcher :=
  SmcDispatcher.ctor sampleConfig 0 { ns_shm := { base_phys := 0x42000000, size := 4, use_cache := true } }

/-- A submission followed by its claim, for evaluation. -/
def sampleCalls : List Call :=
  [Call.NotifyUser (some ⟨0x32000014, (1, 2, 3)⟩), Call.ReadArgs (some ⟨0, (0, 0, 0)⟩)]

/-- The fresh dispatcher after `sampleCalls`: the request is claimed and its
result is pending. -/
def sampleClaimed : SmcDispatcher :=
  (run sampleConfig sampleDispatcher sampleCalls).getD sampleDispatcher

/-- A service that claims the queued request and answers it with 42, for
evaluation. -/
def sampleService (d : SmcDispatcher) : SmcDispatcher :=
  match d.ReadArgs sampleConfig (some ⟨0, (0, 0, 0)⟩) with
  | .ok r => (r.2.1.SetResult sampleConfig 42).2
  | .error _ => d

/-- An environment for evaluation: the sample service, a wait that nothing
interrupts, a mapping that succeeds, sixteen loop steps. -/
def sampleEnv : Env := { service := sampleService, wake := none, map_ok := true, fuel := 16 }

/-- The handshake invariant carried along every sequence of calls: the two
conditions exclude each other, an open gate goes with neither condition and no
pending result signal, and a pending result signal goes with neither
condition. -/
def Inv (c : Config) (d : SmcDispatcher) : Prop :=
  ¬ (d.readable c ∧ d.signaled c) ∧
  (d.can_serve_next_smc = true →
    ¬ d.readable c ∧ ¬ d.signaled c ∧ d.result_event_.signaled = false) ∧
  (d.result_event_.signaled = true → ¬ d.readable c ∧ ¬ d.signaled c)

/-! ## The per-CPU NOP channel -/

/-- Modelled from the spec: `is_valid_cpu_num` of the kernel's CPU header is
not among the sources; the spec validates the CPU index against the supported
range, which is the `SMP_MAX_CPUS` slots of the dispatcher. -/
def is_valid_cpu_num (c : Config) (cpu_num : Nat) : Bool := decide (cpu_num < c.SMP_MAX_CPUS)

/-- The record of an unused NOP slot, also read where an index has no slot. -/
def zero_args : smc32_args_t := { smc_nr := 0, params := (0, 0, 0) }

/-- Both per-CPU arrays have their `SMP_MAX_CPUS` entries. -/
def SmcDispatcher.SlotsWellFormed (c : Config) (d : SmcDispatcher) : Prop :=
  d.req_nop_args.length = c.SMP_MAX_CPUS ∧ d.req_nop_event_.length = c.SMP_MAX_CPUS

instance (c : Config) (d : SmcDispatcher) : Decidable (d.SlotsWellFormed c) := by
  unfold SmcDispatcher.SlotsWellFormed; infer_instance

/-- The member `SmcDispatcher::WriteNopRequest(cpu_num, args)`. -/
def SmcDispatcher.WriteNopRequest (c : Config) (d : SmcDispatcher) (cpu_num : Nat)
    (args : Option smc32_args_t) : Int × SmcDispatcher :=
  match args with
  | none => (ZX_ERR_INVALID_ARGS, d)
  | some a =>
    if is_valid_cpu_num c cpu_num = false then (ZX_ERR_INVALID_ARGS, d)
    else
      let d1 := { d with req_nop_args := d.req_nop_args.set cpu_num a }
      let e := event_signal (d1.req_nop_event_.getD cpu_num (event_init false))
      (ZX_OK, { d1 with req_nop_event_ := d1.req_nop_event_.set cpu_num e })

/-- The member `SmcDispatcher::ReadNopRequest(cpu_num, args)`; `wake` is
passed to the wait on the event of `cpu_num`, and the third component of the
result is the record behind `args` after the call. -/
def SmcDispatcher.ReadNopRequest (c : Config) (d : SmcDispatcher) (cpu_num : Nat)
    (args : Option smc32_args_t) (wake : Option Int) :
    Except Fault (Int × SmcDispatcher × Option smc32_args_t) :=
  match args with
  | none => .ok (ZX_ERR_INVALID_ARGS, d, none)
  | some out =>
    if is_valid_cpu_num c cpu_num = false then .ok (ZX_ERR_INVALID_ARGS, d, some out)
    else
      match event_wait_deadline (d.req_nop_event_.getD cpu_num (event_init false)) wake with
      | .error f => .error f
      | .ok (status, e) =>
        let d1 := { d with req_nop_event_ := d.req_nop_event_.set cpu_num e }
        if status ≠ ZX_OK then .ok (status, d1, some out)
        else .ok (ZX_OK, d1, some (d1.req_nop_args.getD cpu_num zero_args))

/-- The function `notify_nop_thread(args)`; `curr_cpu` is what
`arch_curr_cpu_num()` returns. -/
def notify_nop_thread (c : Config) (curr_cpu : Nat) (k : Kernel) (args : Option smc32_args_t) :
    Int × Kernel :=
  match args with
  | none => (SM_ERR_INVALID_PARAMETERS, k)
  | some a =>
    match k.smc_disp with
    | none => (smc_undefined a, k)
    | some d =>
      let r := d.WriteNopRequest c curr_cpu (some a)
      (SM_OK, { k with smc_disp := some r.2 })

/-- The dispatcher after one call whose wait on `result_event_`, if it parks,
is released with `wake`: unlike `step`, a `WaitForResult` is taken in any
state and may end by a failed wait. -/
def step_wake (c : Config) (d : SmcDispatcher) (wake : Option Int) : Call → Option SmcDispatcher
  | .WaitForResult =>
    match d.WaitForResult wake with
    | .ok r => some r.2
    | .error _ => none
  | .NotifyUser args => step c d (.NotifyUser args)
  | .ReadArgs args => step c d (.ReadArgs args)
  | .SetResult result => step c d (.SetResult result)

/-- A post to the NOP slot of some CPU, or a call on the main request slot
together with the status that releases its wait. -/
inductive NopCall where
  | post (cpu_num : Nat) (args : Option smc32_args_t)
  | main (call : Call) (wake : Option Int)
  deriving DecidableEq, Repr

/-- The dispatcher after a post or a main-slot call. -/
def nop_step (c : Config) (d : SmcDispatcher) : NopCall → Option SmcDispatcher
  | .post cpu_num args => some (d.WriteNopRequest c cpu_num args).2
  | .main call wake => step_wake c d wake call

/-- The dispatcher after a sequence of posts and main-slot calls. -/
def nop_run (c : Config) (d : SmcDispatcher) : List NopCall → Option SmcDispatcher
  | [] => some d
  | call :: rest =>
    match nop_step c d call with
    | some d1 => nop_run c d1 rest
    | none => none

/-- The argument record of the most recent post to `cpu_num` in a sequence,
starting from `acc` for what was posted before it. -/
def last_post (cpu_num : Nat) (acc : Option smc32_args_t) : List NopCall → Option smc32_args_t
  | [] => acc
  | .post k (some a) :: rest => last_post cpu_num (if k = cpu_num then some a else acc) rest
  | _ :: rest => last_post cpu_num acc rest

/-! ## Creation and destruction

`SmcDispatcher::Create` and the destructor run under `alloc_lock` and are
atomic steps on the registry. -/

/-- The record `ns_shm_info_t` that `sm_get_shm_config` fills in. -/
structure ns_shm_info_t where
  pa : Nat
  size : Nat
  use_cache : Bool
  deriving DecidableEq, Repr

/-- Modelled from the spec: the physically-backed memory object
(`VmObjectPhysical`, not among the sources): the range it covers and whether
the cacheable policy was applied. -/
structure VmObject where
  base : Nat
  size : Nat
  cached : Bool
  deriving DecidableEq, Repr

/-- The page size of the platform (arm64: 4 KiB pages). -/
def PAGE_SIZE : Nat := 4096

/-- Modelled from the spec: `ROUNDUP_PAGE_SIZE` (not among the sources) rounds
the size up to the platform page size. -/
def ROUNDUP_PAGE_SIZE (x : Nat) : Nat := ((x + PAGE_SIZE - 1) / PAGE_SIZE) * PAGE_SIZE

/-- Modelled from the spec: `ZX_DEFAULT_SMC_RIGHTS` of `zircon/rights.h` (not
among the sources): duplicate, transfer, read, write and map. -/
def ZX_DEFAULT_SMC_RIGHTS : Nat := 0x2F

/-- What `SmcDispatcher::Create` meets outside the dispatcher: the geometry
`sm_get_shm_config` reports, the status of `VmObjectPhysical::Create`, the
status of `SetMappingCachePolicy`, and whether the allocation of the
dispatcher succeeds. -/
structure CreateEnv where
  shm_config : ns_shm_info_t
  vmo_create : Int
  set_cache_policy : Int
  alloc_ok : Bool
  deriving DecidableEq, Repr

/-- The three locations `SmcDispatcher::Create` writes on success. The
dispatcher handle refers to the object whose state the registry holds. -/
structure CreateOut where
  dispatcher : Option SmcDispatcher
  rights : Nat
  shm_vmo : Option VmObject
  deriving DecidableEq, Repr

/-- The function `SmcDispatcher::Create(options, dispatcher, rights, shm_vmo)`
in the build with `WITH_LIB_SM`: the status, the kernel state and the three
output locations afterwards. -/
def SmcDispatcher.Create (c : Config) (env : CreateEnv) (options : Nat) (k : Kernel)
    (out : CreateOut) : Int × Kernel × CreateOut :=
  match k.smc_disp with
  | none =>
    let info := env.shm_config
    if info.size = 0 then (ZX_ERR_INTERNAL, k, out)
    else
      let shm_pa := info.pa
      let shm_size := ROUNDUP_PAGE_SIZE info.size
      let status := env.vmo_create
      if status ≠ ZX_OK then (status, k, out)
      else if info.use_cache = true ∧ env.set_cache_policy ≠ ZX_OK then
        (env.set_cache_policy, k, out)
      else
        let vmo : VmObject := { base := shm_pa, size := shm_size, cached := info.use_cache }
        let smc_info : zx_info_smc_t :=
          { ns_shm := { base_phys := info.pa, size := info.size, use_cache := info.use_cache } }
        if env.alloc_ok = false then (ZX_ERR_NO_MEMORY, k, out)
        else
          let disp := SmcDispatcher.ctor c options smc_info
          (ZX_OK, { k with smc_disp := some disp },
            { dispatcher := some disp, rights := ZX_DEFAULT_SMC_RIGHTS, shm_vmo := some vmo })
  | some _ => (ZX_ERR_BAD_STATE, k, out)

/-- The destructor `SmcDispatcher::~SmcDispatcher()`. -/
def SmcDispatcher.dtor (k : Kernel) : Kernel := { k with smc_disp := none }

/-- An event in the life of the registry: a call of `Create`, or the
destruction of the live dispatcher. -/
inductive Lifecycle where
  | create (env : CreateEnv) (options : Nat) (out : CreateOut)
  | destroy
  deriving DecidableEq, Repr

/-- The kernel after one lifecycle event, with a flag that is raised by a
successful `Create` and lowered by the destruction: the flag is up exactly
between the two. -/
def lifecycle_step (c : Config) (s : Kernel × Bool) : Lifecycle → Kernel × Bool
  | .create env options out =>
    let r := SmcDispatcher.Create c env options s.1 out
    (r.2.1, if r.1 = ZX_OK then true else s.2)
  | .destroy => (SmcDispatcher.dtor s.1, false)

/-- The kernel and the flag after a sequence of lifecycle events. -/
def lifecycle_run (c : Config) (s : Kernel × Bool) (events : List Lifecycle) : Kernel × Bool :=
  events.foldl (lifecycle_step c) s

/-- A creation environment for evaluation: a 5 MiB cached range, every step
succeeding. -/
def sampleCreateEnv : CreateEnv :=
  { shm_config := { pa := 0x42000000, size := 0x500000, use_cache := true }
    vmo_create := ZX_OK
    set_cache_policy := ZX_OK
    alloc_ok := true }

/-- Output locations before a call of `Create`, for evaluation. -/
def sampleOut : CreateOut := { dispatcher := none, rights := 0, shm_vmo := none }

/-- Two posts to CPU 1 with a submission and a post to CPU 2 in between, for
evaluation. -/
def sampleNopCalls : List NopCall :=
  [NopCall.post 1 (some ⟨0x3C000003, (1, 1, 1)⟩),
   NopCall.main (Call.NotifyUser (some ⟨0x32000014, (1, 2, 3)⟩)) none,
   NopCall.post 2 (some ⟨0x3C000003, (2, 2, 2)⟩),
   NopCall.post 1 (some ⟨0x3C000003, (3, 3, 3)⟩)]

/-- The fresh dispatcher after `sampleNopCalls`. -/
def samplePosted : SmcDispatcher :=
  (nop_run sampleConfig sampleDispatcher sampleNopCalls).getD sampleDispatcher

/-- The status with which the wait of a killed thread ends (`zircon/errors.h`,
the value of the Zircon ABI); any status other than `ZX_OK` is a failed
wait. -/
def ZX_ERR_INTERNAL_INTR_KILLED : Int := -502

/-- The Signaled state of the handshake: the request is claimed by the
service and its result is pending. -/
def SmcDispatcher.Signaled (c : Config) (d : SmcDispatcher) : Prop :=
  d.can_serve_next_smc = false ∧ ¬ d.readable c ∧ d.signaled c

instance (c : Config) (d : SmcDispatcher) : Decidable (d.Signaled c) := by
  unfold SmcDispatcher.Signaled; infer_instance

theorem testBit_u32_not (b i : Nat) :
    (u32_not b).testBit i = (b.testBit i ^^ decide (i < 32)) := by
  unfold u32_not
  rw [Nat.testBit_xor]
  have h : (0xFFFFFFFF : Nat) = 2 ^ 32 - 1 := by norm_num
  rw [h, Nat.testBit_two_pow_sub_one]

theorem or_and_self (x m : Nat) : (x ||| m) &&& m = m := by
  apply Nat.eq_of_testBit_eq
  intro i
  simp only [Nat.testBit_and, Nat.testBit_or]
  cases x.testBit i <;> cases m.testBit i <;> rfl

theorem masked_or_and_eq_zero (x n y t : Nat) (hx : x &&& t = 0) (hy : y &&& t = 0) :
    ((x &&& n) ||| y) &&& t = 0 := by
  apply Nat.eq_of_testBit_eq
  intro i
  have hx1 := congrArg (fun v => v.testBit i) hx
  have hy1 := congrArg (fun v => v.testBit i) hy
  simp only [Nat.testBit_and, Nat.zero_testBit] at hx1 hy1
  simp only [Nat.testBit_and, Nat.testBit_or, Nat.zero_testBit]
  cases hxi : x.testBit i <;> cases hyi : y.testBit i <;> cases hti : t.testBit i <;>
    simp_all

theorem cleared_or_and (x m y : Nat) (hm : m < 2 ^ 32) :
    ((x &&& u32_not m) ||| y) &&& m = y &&& m := by
  apply Nat.eq_of_testBit_eq
  intro i
  simp only [Nat.testBit_and, Nat.testBit_or, testBit_u32_not]
  by_cases hi : i < 32
  · cases x.testBit i <;> cases y.testBit i <;> cases m.testBit i <;> simp [hi]
  · have hmi : m.testBit i = false := by
      apply Nat.testBit_lt_two_pow
      exact lt_of_lt_of_le hm (Nat.pow_le_pow_right (by norm_num) (by omega))
    simp [hmi]

/-! ## The handshake: single calls -/

theorem notify_idle (c : Config) (hc : c.WellFormed) (d : SmcDispatcher) (hidle : d.Idle c)
    (args : Option smc32_args_t) :
    (d.NotifyUser c args).1 = ZX_OK ∧
    (d.NotifyUser c args).2.smc_args = args ∧
    (d.NotifyUser c args).2.can_serve_next_smc = false ∧
    (d.NotifyUser c args).2.readable c ∧ ¬ (d.NotifyUser c args).2.signaled c ∧
    (d.NotifyUser c args).2.result_event_ = d.result_event_ ∧
    (d.NotifyUser c args).2.smc_result = d.smc_result := by
  obtain ⟨hcan, _, hs⟩ := hidle
  obtain ⟨_, _, hR0, _, hRS⟩ := hc
  simp only [SmcDispatcher.signaled, ne_eq, not_not] at hs
  simp only [SmcDispatcher.NotifyUser, hcan, if_true, SmcDispatcher.UpdateStateLocked,
    SmcDispatcher.readable, SmcDispatcher.signaled, ne_eq, not_not, or_and_self]
  exact ⟨trivial, trivial, trivial, hR0, masked_or_and_eq_zero _ _ _ _ hs hRS, trivial, trivial⟩

theorem notify_closed_gate (c : Config) (d : SmcDispatcher)
    (hbusy : d.can_serve_next_smc = false) (args : Option smc32_args_t) :
    d.NotifyUser c args = (ZX_ERR_SHOULD_WAIT, d) := by
  simp [SmcDispatcher.NotifyUser, hbusy]

theorem read_readable (c : Config) (hc : c.WellFormed) (d : SmcDispatcher)
    (hr : d.readable c) (a out : smc32_args_t) (ha : d.smc_args = some a) :
    ∃ d2, d.ReadArgs c (some out) = .ok (ZX_OK, d2, some a) ∧
      d2.can_serve_next_smc = d.can_serve_next_smc ∧ ¬ d2.readable c ∧ d2.signaled c ∧
      d2.result_event_ = d.result_event_ ∧ d2.smc_result = d.smc_result := by
  obtain ⟨hR, _, _, hS0, hRS⟩ := hc
  have hSR : c.ZX_SMC_SIGNALED &&& c.ZX_SMC_READABLE = 0 := by rw [Nat.and_comm]; exact hRS
  have hr1 : d.signals &&& c.ZX_SMC_READABLE ≠ 0 := hr
  refine ⟨d.UpdateStateLocked c.ZX_SMC_READABLE c.ZX_SMC_SIGNALED, ?_, rfl, ?_, ?_, rfl, rfl⟩
  · simp only [SmcDispatcher.ReadArgs, SmcDispatcher.GetSignalsStateLocked, hr1, ne_eq,
      not_false_eq_true, if_true, ha]
  · simp only [SmcDispatcher.readable, SmcDispatcher.UpdateStateLocked, ne_eq, not_not]
    rw [cleared_or_and _ _ _ hR]; exact hSR
  · simp only [SmcDispatcher.signaled, SmcDispatcher.UpdateStateLocked, ne_eq, or_and_self]
    exact hS0

theorem set_signaled (c : Config) (hc : c.WellFormed) (d : SmcDispatcher)
    (hs : d.signaled c) (hr : ¬ d.readable c) (v : Int) :
    (d.SetResult c v).1 = ZX_OK ∧ (d.SetResult c v).2.smc_result = v ∧
    (d.SetResult c v).2.can_serve_next_smc = d.can_serve_next_smc ∧
    ¬ (d.SetResult c v).2.readable c ∧ ¬ (d.SetResult c v).2.signaled c ∧
    (d.SetResult c v).2.result_event_.signaled = true := by
  obtain ⟨_, hS, _, _, _⟩ := hc
  have hs1 : d.signals &&& c.ZX_SMC_SIGNALED ≠ 0 := hs
  simp only [SmcDispatcher.readable, ne_eq, not_not] at hr
  simp only [SmcDispatcher.SetResult, SmcDispatcher.GetSignalsStateLocked, hs1, ne_eq,
    not_false_eq_true, if_true, SmcDispatcher.UpdateStateLocked, SmcDispatcher.readable,
    SmcDispatcher.signaled, not_not, event_signal, event_signal_etc]
  refine ⟨trivial, trivial, trivial, ?_, ?_, trivial⟩
  · exact masked_or_and_eq_zero _ _ _ _ hr (Nat.zero_and _)
  · rw [cleared_or_and _ _ _ hS]; exact Nat.zero_and _

theorem wait_signaled (d : SmcDispatcher) (hcan : d.can_serve_next_smc = false)
    (hev : d.result_event_.signaled = true) (wake : Option Int) :
    d.WaitForResult wake =
      .ok (d.smc_result,
        { d with result_event_ := { signaled := false }, can_serve_next_smc := true }) := by
  simp [SmcDispatcher.WaitForResult, event_wait_deadline, hev, hcan]

/-! ## The handshake: claims -/

/-- C1. Round trip: from every Idle dispatcher, for every argument record `A`
and result value `R`, `NotifyUser(A)`, `ReadArgs(out)`, `SetResult(R)`,
`WaitForResult` return `ZX_OK`, `ZX_OK` with `out = A`, `ZX_OK` and exactly
`R`; afterwards the dispatcher is Idle again and `NotifyUser(B)` is accepted
for every `B`. -/
theorem round_trip (c : Config) (hc : c.WellFormed) (d : SmcDispatcher) (hidle : d.Idle c)
    (A B out : smc32_args_t) (R : Int) (wake : Option Int) :
    ∃ d1 d2 d3 d4 : SmcDispatcher,
      d.NotifyUser c (some A) = (ZX_OK, d1) ∧
      d1.ReadArgs c (some out) = .ok (ZX_OK, d2, some A) ∧
      d2.SetResult c R = (ZX_OK, d3) ∧
      d3.WaitForResult wake = .ok (R, d4) ∧
      d4.Idle c ∧ d4.result_event_.signaled = false ∧
      (d4.NotifyUser c (some B)).1 = ZX_OK ∧
      (d4.NotifyUser c (some B)).2.smc_args = some B := by
  obtain ⟨h1, h1a, h1c, h1r, _, _, _⟩ := notify_idle c hc d hidle (some A)
  obtain ⟨d2, h2, h2c, h2r, h2s, _, _⟩ :=
    read_readable c hc (d.NotifyUser c (some A)).2 h1r A out h1a
  obtain ⟨h3, h3v, h3c, h3r, h3s, h3e⟩ := set_signaled c hc d2 h2s h2r R
  have h3c1 : (d2.SetResult c R).2.can_serve_next_smc = false := by rw [h3c, h2c, h1c]
  have h4 := wait_signaled (d2.SetResult c R).2 h3c1 h3e wake
  rw [h3v] at h4
  have hidle4 : SmcDispatcher.Idle c
      { (d2.SetResult c R).2 with
        result_event_ := { signaled := false }, can_serve_next_smc := true } :=
    ⟨rfl, h3r, h3s⟩
  obtain ⟨h5, h5a, _⟩ := notify_idle c hc _ hidle4 (some B)
  exact ⟨(d.NotifyUser c (some A)).2, d2, (d2.SetResult c R).2, _,
    Prod.ext h1 rfl, h2, Prod.ext h3 rfl, h4, hidle4, rfl, h5, h5a⟩

theorem round_trip_witness :
    sampleConfig.WellFormed ∧ sampleDispatcher.Idle sampleConfig ∧
    ∃ d1 d2 d3 d4 : SmcDispatcher,
      sampleDispatcher.NotifyUser sampleConfig (some ⟨0x32000014, (1, 2, 3)⟩) = (ZX_OK, d1) ∧
      d1.ReadArgs sampleConfig (some ⟨0, (0, 0, 0)⟩) =
        .ok (ZX_OK, d2, some ⟨0x32000014, (1, 2, 3)⟩) ∧
      d2.SetResult sampleConfig 42 = (ZX_OK, d3) ∧
      d3.WaitForResult none = .ok (42, d4) ∧
      d4.Idle sampleConfig ∧ d4.result_event_.signaled = false ∧
      (d4.NotifyUser sampleConfig (some ⟨0x32000015, (4, 5, 6)⟩)).1 = ZX_OK ∧
      (d4.NotifyUser sampleConfig (some ⟨0x32000015, (4, 5, 6)⟩)).2.smc_args =
        some ⟨0x32000015, (4, 5, 6)⟩ :=
  ⟨by decide, by decide,
   round_trip sampleConfig (by decide) sampleDispatcher (by decide)
     ⟨0x32000014, (1, 2, 3)⟩ ⟨0x32000015, (4, 5, 6)⟩ ⟨0, (0, 0, 0)⟩ 42 none⟩

/-- C3. While a submission is outstanding (`can_serve_next_smc = false`,
whether the request is unclaimed, claimed or answered), `NotifyUser` returns
`ZX_ERR_SHOULD_WAIT` and leaves the whole dispatcher state as it was: pending
argument reference, pending result, gate flag, signal bits, and the result
event, on which it does not wait. -/
theorem notify_user_busy (c : Config) (d : SmcDispatcher)
    (hbusy : d.can_serve_next_smc = false) (args : Option smc32_args_t) :
    d.NotifyUser c args = (ZX_ERR_SHOULD_WAIT, d) := by
  simp [SmcDispatcher.NotifyUser, hbusy]

theorem notify_user_busy_witness :
    (sampleDispatcher.NotifyUser sampleConfig (some ⟨0x32000014, (1, 2, 3)⟩)).2.can_serve_next_smc
      = false ∧
    (sampleDispatcher.NotifyUser sampleConfig (some ⟨0x32000014, (1, 2, 3)⟩)).2.NotifyUser
        sampleConfig (some ⟨0x32000015, (4, 5, 6)⟩) =
      (ZX_ERR_SHOULD_WAIT,
        (sampleDispatcher.NotifyUser sampleConfig (some ⟨0x32000014, (1, 2, 3)⟩)).2) :=
  ⟨by decide, notify_user_busy sampleConfig _ (by decide) _⟩

/-- C4. Out-of-order service calls are rejected without effect: in the Idle
state `ReadArgs` with a non-null output record returns `ZX_ERR_SHOULD_WAIT`;
in the Idle state and in the Readable state `SetResult(v)` returns
`ZX_ERR_BAD_STATE` for every `v`; the dispatcher state and the output record
are unchanged. -/
theorem out_of_order_rejected (c : Config) (d : SmcDispatcher) (out : smc32_args_t) (v : Int) :
    (d.Idle c → d.ReadArgs c (some out) = .ok (ZX_ERR_SHOULD_WAIT, d, some out)) ∧
    (d.Idle c ∨ d.Readable c → d.SetResult c v = (ZX_ERR_BAD_STATE, d)) := by
  constructor
  · rintro ⟨_, hr, _⟩
    have hr1 : d.signals &&& c.ZX_SMC_READABLE = 0 := by
      simpa [SmcDispatcher.readable] using hr
    simp [SmcDispatcher.ReadArgs, SmcDispatcher.GetSignalsStateLocked, hr1]
  · intro h
    have hs : ¬ d.signaled c := by
      rcases h with h | h
      · exact h.2.2
      · exact h.2.2
    have hs1 : d.signals &&& c.ZX_SMC_SIGNALED = 0 := by
      simpa [SmcDispatcher.signaled] using hs
    simp [SmcDispatcher.SetResult, SmcDispatcher.GetSignalsStateLocked, hs1]

theorem out_of_order_rejected_witness :
    (sampleDispatcher.Idle sampleConfig ∧
      sampleDispatcher.ReadArgs sampleConfig (some ⟨7, (7, 7, 7)⟩) =
        .ok (ZX_ERR_SHOULD_WAIT, sampleDispatcher, some ⟨7, (7, 7, 7)⟩) ∧
      sampleDispatcher.SetResult sampleConfig 42 = (ZX_ERR_BAD_STATE, sampleDispatcher)) ∧
    ((sampleDispatcher.NotifyUser sampleConfig (some ⟨0x32000014, (1, 2, 3)⟩)).2.Readable
        sampleConfig ∧
      (sampleDispatcher.NotifyUser sampleConfig (some ⟨0x32000014, (1, 2, 3)⟩)).2.SetResult
          sampleConfig 42 =
        (ZX_ERR_BAD_STATE,
          (sampleDispatcher.NotifyUser sampleConfig (some ⟨0x32000014, (1, 2, 3)⟩)).2)) :=
  ⟨⟨by decide,
    (out_of_order_rejected sampleConfig sampleDispatcher ⟨7, (7, 7, 7)⟩ 42).1 (by decide),
    (out_of_order_rejected sampleConfig sampleDispatcher ⟨7, (7, 7, 7)⟩ 42).2
      (Or.inl (by decide))⟩,
   ⟨by decide,
    (out_of_order_rejected sampleConfig _ ⟨7, (7, 7, 7)⟩ 42).2 (Or.inr (by decide))⟩⟩

/-! ## The handshake invariant -/

theorem inv_ctor (c : Config) (options : Nat) (info : zx_info_smc_t) :
    Inv c (SmcDispatcher.ctor c options info) := by
  simp [Inv, SmcDispatcher.ctor, SmcDispatcher.readable, SmcDispatcher.signaled, event_init]

theorem inv_notify (c : Config) (hc : c.WellFormed) (d : SmcDispatcher) (h : Inv c d)
    (args : Option smc32_args_t) : Inv c (d.NotifyUser c args).2 := by
  cases hcan : d.can_serve_next_smc with
  | false => rw [notify_closed_gate c d hcan args]; exact h
  | true =>
    obtain ⟨_, h2, _⟩ := h
    obtain ⟨hr, hs, hev⟩ := h2 hcan
    obtain ⟨_, _, n3, n4, n5, n6, _⟩ := notify_idle c hc d ⟨hcan, hr, hs⟩ args
    refine ⟨fun hh => n5 hh.2, ?_, ?_⟩
    · intro hh; rw [n3] at hh; cases hh
    · intro hh; rw [n6, hev] at hh; cases hh

theorem inv_read (c : Config) (hc : c.WellFormed) (d : SmcDispatcher) (h : Inv c d)
    (args : Option smc32_args_t) (r : Int × SmcDispatcher × Option smc32_args_t)
    (hr : d.ReadArgs c args = .ok r) : Inv c r.2.1 := by
  cases args with
  | none =>
    simp only [SmcDispatcher.ReadArgs, Except.ok.injEq] at hr
    rw [← hr]; exact h
  | some out =>
    by_cases hrd : d.readable c
    · cases ha : d.smc_args with
      | none =>
        have hrd1 : d.signals &&& c.ZX_SMC_READABLE ≠ 0 := hrd
        simp [SmcDispatcher.ReadArgs, SmcDispatcher.GetSignalsStateLocked, hrd1, ha] at hr
      | some a =>
        obtain ⟨d2, e2, r2, r3, r4, r5, _⟩ := read_readable c hc d hrd a out ha
        rw [e2] at hr
        simp only [Except.ok.injEq] at hr
        rw [← hr]
        obtain ⟨_, h2, h3⟩ := h
        have hcan : d.can_serve_next_smc = false := by
          cases hcan : d.can_serve_next_smc with
          | false => rfl
          | true => exact absurd hrd (h2 hcan).1
        have hev : d.result_event_.signaled = false := by
          cases hev : d.result_event_.signaled with
          | false => rfl
          | true => exact absurd hrd (h3 hev).1
        refine ⟨fun hh => r3 hh.1, ?_, ?_⟩
        · intro hh; rw [r2, hcan] at hh; cases hh
        · intro hh; rw [r5, hev] at hh; cases hh
    · have hrd1 : d.signals &&& c.ZX_SMC_READABLE = 0 := by
        simpa [SmcDispatcher.readable] using hrd
      simp only [SmcDispatcher.ReadArgs, SmcDispatcher.GetSignalsStateLocked, hrd1, ne_eq,
        not_true_eq_false, if_false, Except.ok.injEq] at hr
      rw [← hr]; exact h

theorem inv_set (c : Config) (hc : c.WellFormed) (d : SmcDispatcher) (h : Inv c d)
    (v : Int) : Inv c (d.SetResult c v).2 := by
  by_cases hs : d.signaled c
  · obtain ⟨h1, h2, _⟩ := h
    have hr : ¬ d.readable c := fun hh => h1 ⟨hh, hs⟩
    have hcan : d.can_serve_next_smc = false := by
      cases hcan : d.can_serve_next_smc with
      | false => rfl
      | true => exact absurd hs (h2 hcan).2.1
    obtain ⟨_, _, s3, s4, s5, _⟩ := set_signaled c hc d hs hr v
    refine ⟨fun hh => s4 hh.1, ?_, fun _ => ⟨s4, s5⟩⟩
    intro hh; rw [s3, hcan] at hh; cases hh
  · have hs1 : d.signals &&& c.ZX_SMC_SIGNALED = 0 := by
      simpa [SmcDispatcher.signaled] using hs
    have e : d.SetResult c v = (ZX_ERR_BAD_STATE, d) := by
      simp [SmcDispatcher.SetResult, SmcDispatcher.GetSignalsStateLocked, hs1]
    rw [e]; exact h

theorem inv_wait (c : Config) (d : SmcDispatcher) (h : Inv c d)
    (hcan : d.can_serve_next_smc = false) (hev : d.result_event_.signaled = true)
    (r : Int × SmcDispatcher) (hr : d.WaitForResult none = .ok r) : Inv c r.2 := by
  rw [wait_signaled d hcan hev none] at hr
  simp only [Except.ok.injEq] at hr
  rw [← hr]
  obtain ⟨_, _, h3⟩ := h
  obtain ⟨nr, ns⟩ := h3 hev
  exact ⟨fun hh => nr hh.1, fun _ => ⟨nr, ns, rfl⟩, fun hh => by cases hh⟩

theorem inv_step (c : Config) (hc : c.WellFormed) (d d1 : SmcDispatcher) (h : Inv c d)
    (call : Call) (hstep : step c d call = some d1) : Inv c d1 := by
  cases call with
  | NotifyUser args =>
    simp only [step, Option.some.injEq] at hstep
    rw [← hstep]; exact inv_notify c hc d h args
  | ReadArgs args =>
    simp only [step] at hstep
    cases hr : d.ReadArgs c args with
    | error f => rw [hr] at hstep; cases hstep
    | ok r =>
      rw [hr] at hstep
      simp only [Option.some.injEq] at hstep
      rw [← hstep]; exact inv_read c hc d h args r hr
  | SetResult v =>
    simp only [step, Option.some.injEq] at hstep
    rw [← hstep]; exact inv_set c hc d h v
  | WaitForResult =>
    simp only [step] at hstep
    split at hstep
    · rename_i hg
      cases hr : d.WaitForResult none with
      | error f => rw [hr] at hstep; cases hstep
      | ok r =>
        rw [hr] at hstep
        simp only [Option.some.injEq] at hstep
        rw [← hstep]; exact inv_wait c d h hg.1 hg.2 r hr
    · cases hstep

theorem inv_run (c : Config) (hc : c.WellFormed) (calls : List Call) :
    ∀ d d1 : SmcDispatcher, Inv c d → run c d calls = some d1 → Inv c d1 := by
  induction calls with
  | nil =>
    intro d d1 h hrun
    simp only [run, Option.some.injEq] at hrun
    rw [← hrun]; exact h
  | cons call rest ih =>
    intro d d1 h hrun
    simp only [run] at hrun
    cases hs : step c d call with
    | none => rw [hs] at hrun; cases hrun
    | some d2 =>
      rw [hs] at hrun
      exact ih d2 d1 (inv_step c hc d d2 h call hs) hrun

/-- C2. Mutual exclusion: in every state reached from a freshly constructed
dispatcher by any sequence of `NotifyUser`, `ReadArgs`, `SetResult` and
`WaitForResult` calls (`WaitForResult` only with a submission outstanding and
completing by consuming the signal of a successful `SetResult`), READABLE and
SIGNALED are never both asserted, and whenever `can_serve_next_smc` is true
neither of them is asserted. -/
theorem mutual_exclusion (c : Config) (hc : c.WellFormed) (d : SmcDispatcher)
    (hreach : Reachable c d) :
    ¬ (d.readable c ∧ d.signaled c) ∧
    (d.can_serve_next_smc = true → ¬ d.readable c ∧ ¬ d.signaled c) := by
  obtain ⟨options, info, calls, hrun⟩ := hreach
  obtain ⟨h1, h2, _⟩ := inv_run c hc calls _ d (inv_ctor c options info) hrun
  exact ⟨h1, fun hcan => ⟨(h2 hcan).1, (h2 hcan).2.1⟩⟩

theorem mutual_exclusion_witness :
    sampleConfig.WellFormed ∧ Reachable sampleConfig sampleClaimed ∧
    sampleClaimed.signaled sampleConfig ∧
    ¬ (sampleClaimed.readable sampleConfig ∧ sampleClaimed.signaled sampleConfig) ∧
    (sampleClaimed.can_serve_next_smc = true →
      ¬ sampleClaimed.readable sampleConfig ∧ ¬ sampleClaimed.signaled sampleConfig) :=
  ⟨by decide,
   ⟨0, { ns_shm := { base_phys := 0x42000000, size := 4, use_cache := true } }, sampleCalls,
     by decide⟩,
   by decide,
   mutual_exclusion sampleConfig (by decide) sampleClaimed
     ⟨0, { ns_shm := { base_phys := 0x42000000, size := 4, use_cache := true } }, sampleCalls,
       by decide⟩⟩

/-! ## Call numbers -/

theorem mul_pow_or_eq_add (a b i : Nat) (h : b < 2 ^ i) : (a * 2 ^ i) ||| b = a * 2 ^ i + b := by
  rw [Nat.mul_comm a, ← Nat.mul_add_lt_is_or h a]

theorem and_shl_mask (x m k : Nat) : x &&& (m <<< k) = ((x >>> k) &&& m) <<< k := by
  apply Nat.eq_of_testBit_eq
  intro i
  simp only [Nat.testBit_and, Nat.testBit_shiftLeft, Nat.testBit_shiftRight]
  by_cases h : k ≤ i
  · have : k + (i - k) = i := by omega
    simp [h, this]
  · simp [h]

theorem and_field (x w k : Nat) : x &&& ((2 ^ w - 1) <<< k) = ((x / 2 ^ k) % 2 ^ w) * 2 ^ k := by
  rw [and_shl_mask, Nat.and_pow_two_sub_one_eq_mod, Nat.shiftRight_eq_div_pow, Nat.shiftLeft_eq]

theorem and_low (x w : Nat) : x &&& (2 ^ w - 1) = x % 2 ^ w :=
  Nat.and_pow_two_sub_one_eq_mod x w

theorem SMC_NR_eq (e f fc s64 : Nat) (he : e < 64) (hf : f < 65536) (hfc : fc < 2)
    (hs : s64 < 2) : SMC_NR e f fc s64 = fc * 2 ^ 31 + s64 * 2 ^ 30 + e * 2 ^ 24 + f := by
  have h1 : fc &&& 0x1 = fc := by
    have h : fc &&& 1 = fc % 2 := and_low fc 1
    rw [h]; omega
  have h2 : s64 &&& 0x1 = s64 := by
    have h : s64 &&& 1 = s64 % 2 := and_low s64 1
    rw [h]; omega
  have h3 : e &&& 0x3F = e := by
    have h : e &&& 63 = e % 64 := and_low e 6
    rw [h]; omega
  have h4 : f &&& 0xFFFF = f := by
    have h : f &&& 65535 = f % 65536 := and_low f 16
    rw [h]; omega
  unfold SMC_NR u32
  rw [h1, h2, h3, h4]
  simp only [Nat.shiftLeft_eq]
  have a1 : fc * 2 ^ 31 % 2 ^ 32 = fc * 2 ^ 31 := by omega
  have a2 : s64 * 2 ^ 30 % 2 ^ 32 = s64 * 2 ^ 30 := by omega
  have a3 : e * 2 ^ 24 % 2 ^ 32 = e * 2 ^ 24 := by omega
  have s1 : fc * 2 ^ 31 ||| s64 * 2 ^ 30 = (2 * fc + s64) * 2 ^ 30 := by
    rw [mul_pow_or_eq_add fc (s64 * 2 ^ 30) 31 (by omega)]; omega
  have s2 : (2 * fc + s64) * 2 ^ 30 ||| e * 2 ^ 24 = ((2 * fc + s64) * 2 ^ 6 + e) * 2 ^ 24 := by
    rw [mul_pow_or_eq_add (2 * fc + s64) (e * 2 ^ 24) 30 (by omega)]; omega
  rw [a1, a2, a3, s1, s2, mul_pow_or_eq_add ((2 * fc + s64) * 2 ^ 6 + e) f 24 (by omega)]
  omega

theorem SMC_ENTITY_eq (n : Nat) : SMC_ENTITY n = (n / 2 ^ 24) % 2 ^ 6 := by
  unfold SMC_ENTITY
  have h : (0x3F000000 : Nat) = (2 ^ 6 - 1) <<< 24 := by decide
  rw [h, and_field, Nat.shiftRight_eq_div_pow]
  exact Nat.mul_div_cancel _ (by norm_num)

theorem SMC_FUNCTION_eq (n : Nat) : SMC_FUNCTION n = n % 2 ^ 16 := by
  unfold SMC_FUNCTION
  have h : (0x0000FFFF : Nat) = 2 ^ 16 - 1 := by decide
  rw [h, and_low]

theorem SMC_IS_FASTCALL_eq (n : Nat) : SMC_IS_FASTCALL n = ((n / 2 ^ 31) % 2 ^ 1) * 2 ^ 31 := by
  unfold SMC_IS_FASTCALL
  have h : (0x80000000 : Nat) = (2 ^ 1 - 1) <<< 31 := by decide
  rw [h, and_field]

theorem SMC_IS_SMC64_eq (n : Nat) : SMC_IS_SMC64 n = ((n / 2 ^ 30) % 2 ^ 1) * 2 ^ 30 := by
  unfold SMC_IS_SMC64
  have h : (0x40000000 : Nat) = (2 ^ 1 - 1) <<< 30 := by decide
  rw [h, and_field]

/-- C5. Call-number bit layout round trip in 32-bit unsigned arithmetic: for
`e < 64`, `f < 65536` and flags `fc`, `s64` in {0, 1}, with
`n = SMC_NR(e, f, fc, s64)`: `SMC_ENTITY(n) = e`, `SMC_FUNCTION(n) = f`,
`SMC_IS_FASTCALL(n)` is bit 31 and non-zero iff `fc = 1`, `SMC_IS_SMC64(n)` is
bit 30 and non-zero iff `s64 = 1`, bits 16..23 of `n` are zero; and for every
32-bit `m`, `SMC_ENTITY(m) < SMC_NUM_ENTITIES` and `SMC_FUNCTION(m) < 65536`. -/
theorem call_number_layout (e f fc s64 : Nat) (he : e < 64) (hf : f < 65536) (hfc : fc < 2)
    (hs : s64 < 2) :
    SMC_NR e f fc s64 < 2 ^ 32 ∧
    SMC_ENTITY (SMC_NR e f fc s64) = e ∧
    SMC_FUNCTION (SMC_NR e f fc s64) = f ∧
    SMC_IS_FASTCALL (SMC_NR e f fc s64) = fc * 2 ^ 31 ∧
    (SMC_IS_FASTCALL (SMC_NR e f fc s64) ≠ 0 ↔ fc = 1) ∧
    SMC_IS_SMC64 (SMC_NR e f fc s64) = s64 * 2 ^ 30 ∧
    (SMC_IS_SMC64 (SMC_NR e f fc s64) ≠ 0 ↔ s64 = 1) ∧
    SMC_NR e f fc s64 &&& 0x00FF0000 = 0 ∧
    (∀ i, 16 ≤ i → i < 24 → (SMC_NR e f fc s64).testBit i = false) ∧
    ∀ m, m < 2 ^ 32 → SMC_ENTITY m < SMC_NUM_ENTITIES ∧ SMC_FUNCTION m < 65536 := by
  have hn := SMC_NR_eq e f fc s64 he hf hfc hs
  have hmid : SMC_NR e f fc s64 &&& 0x00FF0000 = 0 := by
    have h : (0x00FF0000 : Nat) = (2 ^ 8 - 1) <<< 16 := by decide
    rw [h, and_field, hn]
    omega
  refine ⟨by omega, ?_, ?_, ?_, ?_, ?_, ?_, hmid, ?_, ?_⟩
  · rw [SMC_ENTITY_eq, hn]; omega
  · rw [SMC_FUNCTION_eq, hn]; omega
  · rw [SMC_IS_FASTCALL_eq, hn]; omega
  · rw [SMC_IS_FASTCALL_eq, hn]; omega
  · rw [SMC_IS_SMC64_eq, hn]; omega
  · rw [SMC_IS_SMC64_eq, hn]; omega
  · intro i h16 h24
    have hb := congrArg (fun v => v.testBit i) hmid
    simp only [Nat.testBit_and, Nat.zero_testBit] at hb
    have hm : (0x00FF0000 : Nat).testBit i = true := by
      interval_cases i <;> decide
    rw [hm] at hb
    simpa using hb
  · intro m _
    rw [SMC_ENTITY_eq, SMC_FUNCTION_eq]
    constructor
    · exact Nat.mod_lt _ (by norm_num)
    · exact Nat.mod_lt _ (by norm_num)

theorem call_number_layout_witness :
    (61 < 64 ∧ 1 < 65536 ∧ 1 < 2 ∧ 0 < 2) ∧
    SMC_NR 61 1 1 0 = 0xBD000001 ∧
    SMC_ENTITY (SMC_NR 61 1 1 0) = 61 ∧
    SMC_FUNCTION (SMC_NR 61 1 1 0) = 1 ∧
    SMC_IS_FASTCALL (SMC_NR 61 1 1 0) = 1 * 2 ^ 31 ∧
    SMC_IS_SMC64 (SMC_NR 61 1 1 0) = 0 * 2 ^ 30 ∧
    SMC_NR 61 1 1 0 &&& 0x00FF0000 = 0 :=
  ⟨by decide, by decide,
   (call_number_layout 61 1 1 0 (by decide) (by decide) (by decide) (by decide)).2.1,
   (call_number_layout 61 1 1 0 (by decide) (by decide) (by decide) (by decide)).2.2.1,
   (call_number_layout 61 1 1 0 (by decide) (by decide) (by decide) (by decide)).2.2.2.1,
   (call_number_layout 61 1 1 0 (by decide) (by decide) (by decide) (by decide)).2.2.2.2.2.1,
   (call_number_layout 61 1 1 0 (by decide) (by decide) (by decide) (by decide)).2.2.2.2.2.2.2.1⟩

/-! ## Routing -/

/-- C6. Routing under contention: for every non-null argument record whose
entity is not the test entity, with a dispatcher live: if a call is in flight
(`can_serve_next_smc = false`) `notify_smc_service` returns `SM_ERR_BUSY`
(-5) whatever the environment of the wait would be, and the kernel state, the
dispatcher included, is unchanged; if the dispatcher is Idle it returns
exactly what `WaitForResult` returns. -/
theorem routing_contention (c : Config) (env : Env) (k : Kernel) (d : SmcDispatcher)
    (a : smc32_args_t) (hd : k.smc_disp = some d)
    (hent : SMC_ENTITY a.smc_nr ≠ SMC_ENTITY_TEST) :
    (d.can_serve_next_smc = false →
      notify_smc_service c env k (some a) = .ok (SM_ERR_BUSY, k) ∧ SM_ERR_BUSY = -5) ∧
    (d.Idle c →
      notify_smc_service c env k (some a) =
        match (env.service (d.NotifyUser c (some a)).2).WaitForResult env.wake with
        | .error f => .error f
        | .ok w => .ok (w.1, { k with smc_disp := some w.2 })) := by
  constructor
  · intro hbusy
    have hk : ({ k with smc_disp := some d } : Kernel) = k := by
      cases k; simp only [Kernel.mk.injEq, and_true]; exact hd.symm
    simp [notify_smc_service, hd, hent, notify_closed_gate c d hbusy, ZX_ERR_SHOULD_WAIT, ZX_OK,
      hk, SM_ERR_BUSY]
  · intro hidle
    have h1 : (d.NotifyUser c (some a)).1 = ZX_OK := by
      simp [SmcDispatcher.NotifyUser, hidle.1]
    simp only [notify_smc_service, hd, hent, if_false, h1, ne_eq, not_true_eq_false]

/-- C7. Routing with no dispatcher: for every non-null argument record, the
test entity included, with the registry empty `notify_smc_service` returns
the undefined-SMC outcome, whatever the self-test parameters are, and leaves
the registry empty and the shared memory untouched. -/
theorem routing_no_dispatcher (c : Config) (env : Env) (shm : List Nat) (a : smc32_args_t) :
    notify_smc_service c env { smc_disp := none, shm := shm } (some a) =
      .ok (smc_undefined a, { smc_disp := none, shm := shm }) ∧
    smc_undefined a = SM_ERR_UNDEFINED_SMC := by
  simp [notify_smc_service, smc_undefined]

theorem routing_contention_witness :
    (sampleClaimed.can_serve_next_smc = false ∧
      SMC_ENTITY 0x32000015 ≠ SMC_ENTITY_TEST ∧
      notify_smc_service sampleConfig sampleEnv ⟨some sampleClaimed, [0, 0, 0, 0]⟩
          (some ⟨0x32000015, (4, 5, 6)⟩) =
        .ok (SM_ERR_BUSY, ⟨some sampleClaimed, [0, 0, 0, 0]⟩)) ∧
    (sampleDispatcher.Idle sampleConfig ∧
      notify_smc_service sampleConfig sampleEnv ⟨some sampleDispatcher, [0, 0, 0, 0]⟩
          (some ⟨0x32000015, (4, 5, 6)⟩) =
        .ok (42, ⟨some { sampleDispatcher with
                          smc_args := some ⟨0x32000015, (4, 5, 6)⟩, smc_result := 42 },
                  [0, 0, 0, 0]⟩)) :=
  ⟨⟨by decide, by decide,
    ((routing_contention sampleConfig sampleEnv ⟨some sampleClaimed, [0, 0, 0, 0]⟩
      sampleClaimed ⟨0x32000015, (4, 5, 6)⟩ rfl (by decide)).1 (by decide)).1⟩,
   ⟨by decide,
    ((routing_contention sampleConfig sampleEnv ⟨some sampleDispatcher, [0, 0, 0, 0]⟩
      sampleDispatcher ⟨0x32000015, (4, 5, 6)⟩ rfl (by decide)).2 (by decide)).trans
      rfl⟩⟩

/-! ## The shared-memory self-test -/

theorem write_pattern_eq (i : Nat) : u8 ((i &&& 0xff) ^^^ 0xaa) = (i % 256) ^^^ 0xaa := by
  have h : i &&& 255 = i % 256 := and_low i 8
  have hlt : (i % 256) ^^^ 0xaa < 2 ^ 8 :=
    Nat.xor_lt_two_pow (Nat.mod_lt _ (by norm_num)) (by norm_num)
  unfold u8
  rw [h]
  exact Nat.mod_eq_of_lt hlt

theorem write_pattern_ne (i : Nat) : (i % 256) ^^^ 0xaa ≠ i % 256 := by
  intro h
  have h1 : ((i % 256) ^^^ 0xaa) ^^^ (i % 256) = 0 := by rw [h, Nat.xor_self]
  rw [Nat.xor_comm, ← Nat.xor_assoc, Nat.xor_self, Nat.zero_xor] at h1
  exact absurd h1 (by decide)

theorem write_loop_succ (n : Nat) (shm : List Nat) :
    write_loop (n + 1) shm = (write_loop n shm).set n ((n % 256) ^^^ 0xaa) := by
  simp only [write_loop, List.range_succ, List.foldl_append, List.foldl_cons, List.foldl_nil,
    write_pattern_eq]

theorem write_loop_length (n : Nat) (shm : List Nat) :
    (write_loop n shm).length = shm.length := by
  induction n with
  | zero => rfl
  | succ n ih => rw [write_loop_succ, List.length_set, ih]

theorem write_loop_getD (shm : List Nat) :
    ∀ n : Nat, n ≤ shm.length → ∀ j,
      (write_loop n shm).getD j 0 = if j < n then (j % 256) ^^^ 0xaa else shm.getD j 0 := by
  intro n
  induction n with
  | zero => intro _ j; simp [write_loop]
  | succ n ih =>
    intro hlen j
    rw [write_loop_succ]
    have hn : n < (write_loop n shm).length := by rw [write_loop_length]; omega
    by_cases hj : n = j
    · subst hj
      rw [if_pos (by omega)]
      simp [List.getD_eq_getElem?_getD, List.getElem?_set, hn]
    · have h1 : ((write_loop n shm).set n ((n % 256) ^^^ 0xaa)).getD j 0 =
          (write_loop n shm).getD j 0 := by
        simp [List.getD_eq_getElem?_getD, List.getElem?_set, hj]
      rw [h1, ih (by omega) j]
      by_cases hjn : j < n
      · rw [if_pos hjn, if_pos (by omega)]
      · rw [if_neg hjn, if_neg (by omega)]

theorem and_ff (i : Nat) : i &&& 0xff = i % 256 := and_low i 8

theorem verify_loop_pass (size : Nat) (shm : List Nat) (hsize : size < 2 ^ 32) :
    ∀ fuel i : Nat, size - i < fuel →
      (∀ j, i ≤ j → j < size → shm.getD j 0 = j % 256) →
      verify_loop fuel size shm i = .ok none := by
  intro fuel
  induction fuel with
  | zero => intro i h; omega
  | succ fuel ih =>
    intro i hfuel hall
    by_cases hi : i < size
    · have hnext : u32 (i + 1) = i + 1 := Nat.mod_eq_of_lt (by omega)
      rw [verify_loop, if_pos hi, and_ff, if_neg (not_not.mpr (hall i (le_refl _) hi)), hnext]
      exact ih (i + 1) (by omega) (fun j hj hjs => hall j (by omega) hjs)
    · rw [verify_loop, if_neg hi]

theorem verify_loop_fail (size : Nat) (shm : List Nat) (hsize : size < 2 ^ 32) (k : Nat)
    (hk : k < size) (hbad : shm.getD k 0 ≠ k % 256) :
    ∀ fuel i : Nat, i ≤ k → k - i < fuel →
      (∀ j, i ≤ j → j < k → shm.getD j 0 = j % 256) →
      verify_loop fuel size shm i = .ok (some (k, shm.getD k 0, k % 256)) := by
  intro fuel
  induction fuel with
  | zero => intro i _ h; omega
  | succ fuel ih =>
    intro i hik hfuel hall
    have hi : i < size := by omega
    by_cases hik1 : i = k
    · subst hik1
      rw [verify_loop, if_pos hi, and_ff, if_pos hbad]
    · have hnext : u32 (i + 1) = i + 1 := Nat.mod_eq_of_lt (by omega)
      rw [verify_loop, if_pos hi, and_ff,
        if_neg (not_not.mpr (hall i (le_refl _) (by omega))), hnext]
      exact ih (i + 1) (by omega) (by omega) (fun j hj hjk => hall j (by omega) hjk)

theorem verify_shm_pass (fuel : Nat) (d : SmcDispatcher) (shm : List Nat)
    (hsize : d.smc_info.ns_shm.size < 2 ^ 32) (hfuel : d.smc_info.ns_shm.size < fuel)
    (hall : ∀ i, i < d.smc_info.ns_shm.size → shm.getD i 0 = i % 256) :
    verify_shm fuel true d shm = .ok (0, none) := by
  simp only [verify_shm, SmcDispatcher.GetSmcInfo, Bool.true_eq_false, if_false]
  rw [verify_loop_pass _ shm hsize fuel 0 (by omega) (fun j _ hj => hall j hj)]

theorem verify_shm_fail (fuel : Nat) (d : SmcDispatcher) (shm : List Nat)
    (hsize : d.smc_info.ns_shm.size < 2 ^ 32) (hfuel : d.smc_info.ns_shm.size < fuel)
    (k : Nat) (hk : k < d.smc_info.ns_shm.size) (hbad : shm.getD k 0 ≠ k % 256)
    (hall : ∀ i, i < k → shm.getD i 0 = i % 256) :
    verify_shm fuel true d shm =
      .ok (SM_ERR_INTERNAL_FAILURE, some (k, shm.getD k 0, k % 256)) := by
  simp only [verify_shm, SmcDispatcher.GetSmcInfo, Bool.true_eq_false, if_false]
  rw [verify_loop_fail _ shm hsize k hk hbad fuel 0 (by omega) (by omega)
    (fun j _ hj => hall j hj)]

theorem first_mismatch (N : Nat) (shm : List Nat)
    (h : ¬ ∀ i, i < N → shm.getD i 0 = i % 256) :
    ∃ k, k < N ∧ shm.getD k 0 ≠ k % 256 ∧ ∀ i, i < k → shm.getD i 0 = i % 256 := by
  have hex : ∃ k, k < N ∧ shm.getD k 0 ≠ k % 256 := by
    by_contra hne
    exact h (fun i hi => by
      by_contra hb
      exact hne ⟨i, hi, hb⟩)
  refine ⟨Nat.find hex, (Nat.find_spec hex).1, (Nat.find_spec hex).2, ?_⟩
  intro i hi
  by_contra hb
  exact Nat.find_min hex hi ⟨lt_trans hi (Nat.find_spec hex).1, hb⟩

theorem verify_after_write (fuel : Nat) (d : SmcDispatcher) (shm : List Nat)
    (hlen : shm.length = d.smc_info.ns_shm.size) (hpos : 0 < d.smc_info.ns_shm.size) :
    verify_shm (fuel + 1) true d (write_shm true d shm).2 =
      .ok (SM_ERR_INTERNAL_FAILURE, some (0, 0xaa, 0)) := by
  have h0 : (write_loop d.smc_info.ns_shm.size shm).getD 0 0 = 0xaa := by
    rw [write_loop_getD shm _ (by omega) 0, if_pos hpos]; rfl
  simp only [verify_shm, write_shm, SmcDispatcher.GetSmcInfo, Bool.true_eq_false, if_false,
    verify_loop, if_pos hpos, h0]
  rfl

/-- C8, as the code has it. For every region of N bytes and every initial
content, with mapping succeeding, `write_shm` returns 0 and stores
`(i mod 256) xor 0xAA` at every offset `i < N`; `verify_shm` run next with no
intervening write returns 0 when `N = 0`, and for every `N >= 1` it returns
`SM_ERR_INTERNAL_FAILURE`, reporting offset 0 (found 0xAA, expected 0x00). -/
theorem write_then_verify_amended (fuel : Nat) (d : SmcDispatcher) (shm : List Nat)
    (hlen : shm.length = d.smc_info.ns_shm.size) (hfuel : 0 < fuel) :
    (write_shm true d shm).1 = 0 ∧
    (write_shm true d shm).2.length = shm.length ∧
    (∀ i, i < d.smc_info.ns_shm.size →
      (write_shm true d shm).2.getD i 0 = (i % 256) ^^^ 0xaa) ∧
    (d.smc_info.ns_shm.size = 0 →
      verify_shm fuel true d (write_shm true d shm).2 = .ok (0, none)) ∧
    (0 < d.smc_info.ns_shm.size →
      verify_shm fuel true d (write_shm true d shm).2 =
        .ok (SM_ERR_INTERNAL_FAILURE, some (0, 0xaa, 0))) := by
  obtain ⟨f, rfl⟩ : ∃ f, fuel = f + 1 := ⟨fuel - 1, by omega⟩
  refine ⟨rfl, ?_, ?_, ?_, ?_⟩
  · simp only [write_shm, SmcDispatcher.GetSmcInfo, Bool.true_eq_false, if_false]
    exact write_loop_length _ _
  · intro i hi
    simp only [write_shm, SmcDispatcher.GetSmcInfo, Bool.true_eq_false, if_false]
    rw [write_loop_getD shm _ (by omega) i, if_pos hi]
  · intro h0
    simp only [verify_shm, SmcDispatcher.GetSmcInfo, Bool.true_eq_false, if_false, verify_loop,
      h0, Nat.lt_irrefl]
  · intro hpos
    exact verify_after_write f d shm hlen hpos

theorem write_then_verify_amended_witness :
    ([0, 0, 0, 0] : List Nat).length = sampleDispatcher.smc_info.ns_shm.size ∧ 0 < 16 ∧
    (write_shm true sampleDispatcher [0, 0, 0, 0]).1 = 0 ∧
    verify_shm 16 true sampleDispatcher (write_shm true sampleDispatcher [0, 0, 0, 0]).2 =
      .ok (SM_ERR_INTERNAL_FAILURE, some (0, 0xaa, 0)) :=
  ⟨by decide, by decide,
   (write_then_verify_amended 16 sampleDispatcher [0, 0, 0, 0] (by decide) (by decide)).1,
   (write_then_verify_amended 16 sampleDispatcher [0, 0, 0, 0] (by decide) (by decide)).2.2.2.2
     (by decide)⟩

/-- C8, as stated, fails: on a 4-byte region of zeros `write_shm` returns 0 and
leaves `AA AB A8 A9`, and `verify_shm` run next returns
`SM_ERR_INTERNAL_FAILURE` at offset 0; with no number of loop steps does it
return 0. -/
theorem write_then_verify_counterexample :
    write_shm true sampleDispatcher [0, 0, 0, 0] = (0, [0xaa, 0xab, 0xa8, 0xa9]) ∧
    verify_shm 16 true sampleDispatcher [0xaa, 0xab, 0xa8, 0xa9] =
      .ok (SM_ERR_INTERNAL_FAILURE, some (0, 0xaa, 0)) ∧
    ¬ ∃ (fuel : Nat) (t : Option (Nat × Nat × Nat)),
        (write_shm true sampleDispatcher [0, 0, 0, 0]).1 = 0 ∧
        verify_shm fuel true sampleDispatcher (write_shm true sampleDispatcher [0, 0, 0, 0]).2 =
          .ok (0, t) := by
  refine ⟨by decide, rfl, ?_⟩
  rintro ⟨fuel, t, _, h⟩
  cases fuel with
  | zero => exact absurd h (by simp [verify_shm, verify_loop, SmcDispatcher.GetSmcInfo])
  | succ f =>
    rw [verify_after_write f sampleDispatcher [0, 0, 0, 0] (by decide) (by decide)] at h
    simp [SM_ERR_INTERNAL_FAILURE] at h

/-- C9. Verification is exact and reports the first mismatch: for every N-byte
region content (N a 32-bit size, mapping succeeding, loop steps granted),
`verify_shm` returns 0 iff every byte at `i < N` equals `i mod 256`; otherwise
it returns `SM_ERR_INTERNAL_FAILURE` (-7) and the traced offset is the least
`i` whose byte differs from `i mod 256`; changing one byte of a region that
verifies makes it fail at exactly that offset; and the outcome depends on the
region content alone. -/
theorem verify_shm_exact (fuel : Nat) (d : SmcDispatcher) (shm : List Nat)
    (hlen : shm.length = d.smc_info.ns_shm.size)
    (hsize : d.smc_info.ns_shm.size < 2 ^ 32) (hfuel : d.smc_info.ns_shm.size < fuel) :
    ((∃ t, verify_shm fuel true d shm = .ok (0, t)) ↔
      ∀ i, i < d.smc_info.ns_shm.size → shm.getD i 0 = i % 256) ∧
    ((∀ i, i < d.smc_info.ns_shm.size → shm.getD i 0 = i % 256) →
      verify_shm fuel true d shm = .ok (0, none)) ∧
    ((¬ ∀ i, i < d.smc_info.ns_shm.size → shm.getD i 0 = i % 256) →
      ∃ k, k < d.smc_info.ns_shm.size ∧ shm.getD k 0 ≠ k % 256 ∧
        (∀ i, i < k → shm.getD i 0 = i % 256) ∧
        verify_shm fuel true d shm =
          .ok (SM_ERR_INTERNAL_FAILURE, some (k, shm.getD k 0, k % 256))) ∧
    (∀ k v, k < d.smc_info.ns_shm.size → v ≠ k % 256 →
      (∀ i, i < d.smc_info.ns_shm.size → shm.getD i 0 = i % 256) →
      verify_shm fuel true d (shm.set k v) =
        .ok (SM_ERR_INTERNAL_FAILURE, some (k, v, k % 256))) ∧
    (∀ (d2 : SmcDispatcher) (fuel2 : Nat),
      d2.smc_info.ns_shm.size = d.smc_info.ns_shm.size → d.smc_info.ns_shm.size < fuel2 →
      verify_shm fuel2 true d2 shm = verify_shm fuel true d shm) ∧
    SM_ERR_INTERNAL_FAILURE = -7 := by
  have hfailing : (¬ ∀ i, i < d.smc_info.ns_shm.size → shm.getD i 0 = i % 256) →
      ∃ k, k < d.smc_info.ns_shm.size ∧ shm.getD k 0 ≠ k % 256 ∧
        (∀ i, i < k → shm.getD i 0 = i % 256) ∧
        verify_shm fuel true d shm =
          .ok (SM_ERR_INTERNAL_FAILURE, some (k, shm.getD k 0, k % 256)) := by
    intro hne
    obtain ⟨k, hk, hbad, hmin⟩ := first_mismatch _ shm hne
    exact ⟨k, hk, hbad, hmin, verify_shm_fail fuel d shm hsize hfuel k hk hbad hmin⟩
  refine ⟨⟨?_, fun hall => ⟨none, verify_shm_pass fuel d shm hsize hfuel hall⟩⟩,
    verify_shm_pass fuel d shm hsize hfuel, hfailing, ?_, ?_, rfl⟩
  · rintro ⟨t, ht⟩
    by_contra hne
    obtain ⟨k, _, _, _, hv⟩ := hfailing hne
    rw [hv] at ht
    simp [SM_ERR_INTERNAL_FAILURE] at ht
  · intro k v hk hv hall
    have hkl : k < shm.length := by omega
    have hget : (shm.set k v).getD k 0 = v := by
      simp [List.getD_eq_getElem?_getD, List.getElem?_set, hkl]
    have hbefore : ∀ i, i < k → (shm.set k v).getD i 0 = i % 256 := by
      intro i hi
      have hik : ¬ k = i := by omega
      have h1 : (shm.set k v).getD i 0 = shm.getD i 0 := by
        simp [List.getD_eq_getElem?_getD, List.getElem?_set, hik]
      rw [h1]; exact hall i (by omega)
    have h := verify_shm_fail fuel d (shm.set k v) hsize hfuel k hk (by rw [hget]; exact hv)
      hbefore
    rw [hget] at h
    exact h
  · intro d2 fuel2 hd2 hfuel2
    by_cases hall : ∀ i, i < d.smc_info.ns_shm.size → shm.getD i 0 = i % 256
    · rw [verify_shm_pass fuel d shm hsize hfuel hall,
        verify_shm_pass fuel2 d2 shm (by rw [hd2]; exact hsize) (by rw [hd2]; exact hfuel2)
          (by rw [hd2]; exact hall)]
    · obtain ⟨k, hk, hbad, hmin⟩ := first_mismatch _ shm hall
      rw [verify_shm_fail fuel d shm hsize hfuel k hk hbad hmin,
        verify_shm_fail fuel2 d2 shm (by rw [hd2]; exact hsize) (by rw [hd2]; exact hfuel2) k
          (by rw [hd2]; exact hk) hbad hmin]

theorem verify_shm_exact_witness :
    ([0, 1, 2, 3] : List Nat).length = sampleDispatcher.smc_info.ns_shm.size ∧
    sampleDispatcher.smc_info.ns_shm.size < 2 ^ 32 ∧
    sampleDispatcher.smc_info.ns_shm.size < 16 ∧
    verify_shm 16 true sampleDispatcher [0, 1, 2, 3] = .ok (0, none) ∧
    verify_shm 16 true sampleDispatcher ([0, 1, 2, 3].set 2 9) =
      .ok (SM_ERR_INTERNAL_FAILURE, some (2, 9, 2 % 256)) :=
  ⟨by decide, by decide, by decide,
   (verify_shm_exact 16 sampleDispatcher [0, 1, 2, 3] (by decide) (by decide)
     (by decide)).2.1 (by decide),
   (verify_shm_exact 16 sampleDispatcher [0, 1, 2, 3] (by decide) (by decide)
     (by decide)).2.2.2.1 2 9 (by decide) (by decide) (by decide)⟩

/-- C10, as the code has it. Every error code of the vocabulary other than the
undefined-call code is, as the `long` the routing functions return, a negative
integer in -15..-2, and the fifteen codes are pairwise distinct; the
undefined-call code `SM_ERR_UNDEFINED_SMC`, which `invoke_smc_test` returns
for every call number other than `SMC_SC_WRITE_SHM` and `SMC_SC_VERIFY_SHM`,
is the constant `0xFFFFFFFF`, as a 64-bit `long` 4294967295 and not
negative. -/
theorem result_codes_amended (fuel : Nat) (map_ok : Bool) (d : SmcDispatcher)
    (shm : List Nat) (a : smc32_args_t) (hw : a.smc_nr ≠ SMC_SC_WRITE_SHM)
    (hv : a.smc_nr ≠ SMC_SC_VERIFY_SHM) :
    invoke_smc_test fuel map_ok d shm a = .ok (SM_ERR_UNDEFINED_SMC, shm) ∧
    SM_ERR_UNDEFINED_SMC = 0xFFFFFFFF ∧
    SM_ERR_UNDEFINED_SMC = 4294967295 ∧
    0 ≤ SM_ERR_UNDEFINED_SMC ∧
    (∀ x ∈ sm_error_codes.tail, -15 ≤ x ∧ x ≤ -2) ∧
    sm_error_codes.length = 15 ∧
    sm_error_codes.head? = some SM_ERR_UNDEFINED_SMC ∧
    sm_error_codes.Nodup := by
  refine ⟨?_, by decide, by decide, by decide, by decide, by decide, by decide, by decide⟩
  simp only [invoke_smc_test, if_neg hw, if_neg hv]

theorem result_codes_amended_witness :
    SMC_ENTITY (SMC_STDCALL_NR SMC_ENTITY_TEST 2) = SMC_ENTITY_TEST ∧
    SMC_STDCALL_NR SMC_ENTITY_TEST 2 ≠ SMC_SC_WRITE_SHM ∧
    SMC_STDCALL_NR SMC_ENTITY_TEST 2 ≠ SMC_SC_VERIFY_SHM ∧
    invoke_smc_test 16 true sampleDispatcher [0, 0, 0, 0]
        ⟨SMC_STDCALL_NR SMC_ENTITY_TEST 2, (0, 0, 0)⟩ =
      .ok (SM_ERR_UNDEFINED_SMC, [0, 0, 0, 0]) ∧
    SM_ERR_UNDEFINED_SMC = 4294967295 :=
  ⟨by decide, by decide, by decide,
   (result_codes_amended 16 true sampleDispatcher [0, 0, 0, 0]
     ⟨SMC_STDCALL_NR SMC_ENTITY_TEST 2, (0, 0, 0)⟩ (by decide) (by decide)).1,
   (result_codes_amended 16 true sampleDispatcher [0, 0, 0, 0]
     ⟨SMC_STDCALL_NR SMC_ENTITY_TEST 2, (0, 0, 0)⟩ (by decide) (by decide)).2.2.1⟩

/-- C10, as stated, fails: for the test-entity call number with function 2,
which is neither `SMC_SC_WRITE_SHM` nor `SMC_SC_VERIFY_SHM`, `invoke_smc_test`
returns `SM_ERR_UNDEFINED_SMC`, which as a 64-bit `long` is 4294967295: it is
not negative, so not every code of the vocabulary lies in -15..-1. -/
theorem result_codes_counterexample :
    invoke_smc_test 16 true sampleDispatcher [0, 0, 0, 0]
        ⟨SMC_STDCALL_NR SMC_ENTITY_TEST 2, (0, 0, 0)⟩ =
      .ok (SM_ERR_UNDEFINED_SMC, [0, 0, 0, 0]) ∧
    SM_ERR_UNDEFINED_SMC = 4294967295 ∧
    ¬ SM_ERR_UNDEFINED_SMC < 0 ∧
    ¬ ∀ x ∈ sm_error_codes, -15 ≤ x ∧ x ≤ -1 := by
  refine ⟨rfl, by decide, by decide, by decide⟩

/-! ## Creation and destruction -/

theorem create_live (c : Config) (env : CreateEnv) (options : Nat) (k : Kernel)
    (out : CreateOut) (d : SmcDispatcher) (hlive : k.smc_disp = some d) :
    SmcDispatcher.Create c env options k out = (ZX_ERR_BAD_STATE, k, out) := by
  simp [SmcDispatcher.Create, hlive]

theorem create_empty_failure (c : Config) (env : CreateEnv) (options : Nat) (k : Kernel)
    (out : CreateOut) (hempty : k.smc_disp = none)
    (hfail : (SmcDispatcher.Create c env options k out).1 ≠ ZX_OK) :
    (SmcDispatcher.Create c env options k out).2 = (k, out) := by
  simp only [SmcDispatcher.Create, hempty] at hfail ⊢
  split_ifs at hfail ⊢ <;> first | rfl | exact absurd rfl hfail

theorem create_empty_success (c : Config) (env : CreateEnv) (options : Nat) (k : Kernel)
    (out : CreateOut) (hempty : k.smc_disp = none) (hsize : env.shm_config.size ≠ 0)
    (hvmo : env.vmo_create = ZX_OK)
    (hcache : env.shm_config.use_cache = true → env.set_cache_policy = ZX_OK)
    (halloc : env.alloc_ok = true) :
    SmcDispatcher.Create c env options k out =
      (ZX_OK,
       { k with smc_disp := some (SmcDispatcher.ctor c options
          { ns_shm := { base_phys := env.shm_config.pa, size := env.shm_config.size,
                        use_cache := env.shm_config.use_cache } }) },
       { dispatcher := some (SmcDispatcher.ctor c options
          { ns_shm := { base_phys := env.shm_config.pa, size := env.shm_config.size,
                        use_cache := env.shm_config.use_cache } }),
         rights := ZX_DEFAULT_SMC_RIGHTS,
         shm_vmo := some { base := env.shm_config.pa,
                           size := ROUNDUP_PAGE_SIZE env.shm_config.size,
                           cached := env.shm_config.use_cache } }) := by
  have hc : ¬ (env.shm_config.use_cache = true ∧ env.set_cache_policy ≠ ZX_OK) :=
    fun h => h.2 (hcache h.1)
  simp only [SmcDispatcher.Create, hempty, if_neg hsize, hvmo, ne_eq, not_true_eq_false,
    if_false, halloc, Bool.true_eq_false]
  rw [if_neg hc]

/-- C11, as the code has it. For every options value, `SmcDispatcher::Create`
called while the registry holds a live dispatcher fails with
`ZX_ERR_BAD_STATE`, writes none of its outputs (dispatcher, rights,
shared-memory object), and leaves the registry pointing at the original
dispatcher. -/
theorem create_while_live_amended (c : Config) (env : CreateEnv) (options : Nat) (k : Kernel)
    (out : CreateOut) (d : SmcDispatcher) (hlive : k.smc_disp = some d) :
    (SmcDispatcher.Create c env options k out).1 = ZX_ERR_BAD_STATE ∧
    (SmcDispatcher.Create c env options k out).2.2 = out ∧
    (SmcDispatcher.Create c env options k out).2.1 = k ∧
    (SmcDispatcher.Create c env options k out).2.1.smc_disp = some d := by
  rw [create_live c env options k out d hlive]
  exact ⟨rfl, rfl, rfl, hlive⟩

theorem create_while_live_amended_witness :
    (⟨some sampleDispatcher, [0, 0, 0, 0]⟩ : Kernel).smc_disp = some sampleDispatcher ∧
    (SmcDispatcher.Create sampleConfig sampleCreateEnv 7 ⟨some sampleDispatcher, [0, 0, 0, 0]⟩
      sampleOut).1 = ZX_ERR_BAD_STATE ∧
    (SmcDispatcher.Create sampleConfig sampleCreateEnv 7 ⟨some sampleDispatcher, [0, 0, 0, 0]⟩
      sampleOut).2.2 = sampleOut :=
  ⟨rfl,
   (create_while_live_amended sampleConfig sampleCreateEnv 7 ⟨some sampleDispatcher, [0, 0, 0, 0]⟩
     sampleOut sampleDispatcher rfl).1,
   (create_while_live_amended sampleConfig sampleCreateEnv 7 ⟨some sampleDispatcher, [0, 0, 0, 0]⟩
     sampleOut sampleDispatcher rfl).2.1⟩

/-- C11, as stated, fails: with a live dispatcher registered, `Create` returns
`ZX_ERR_BAD_STATE`, which is not `ZX_ERR_ALREADY_EXISTS`. -/
theorem create_while_live_counterexample :
    (SmcDispatcher.Create sampleConfig sampleCreateEnv 7 ⟨some sampleDispatcher, [0, 0, 0, 0]⟩
      sampleOut).1 = ZX_ERR_BAD_STATE ∧
    ¬ (SmcDispatcher.Create sampleConfig sampleCreateEnv 7 ⟨some sampleDispatcher, [0, 0, 0, 0]⟩
      sampleOut).1 = ZX_ERR_ALREADY_EXISTS := by
  constructor
  · rfl
  · decide

/-- C12. Creation failures are atomic: with no dispatcher live, a reported
shared-memory size of zero makes `Create` return `ZX_ERR_INTERNAL`, a failing
memory-object construction or cache-policy call has its status returned
unchanged, a failing allocation gives `ZX_ERR_NO_MEMORY`; and after every
failing `Create` the registry still holds no dispatcher (the kernel state and
the output locations are as before). -/
theorem create_failure_atomic (c : Config) (env : CreateEnv) (options : Nat) (k : Kernel)
    (out : CreateOut) (hempty : k.smc_disp = none) :
    (env.shm_config.size = 0 →
      (SmcDispatcher.Create c env options k out).1 = ZX_ERR_INTERNAL) ∧
    (env.shm_config.size ≠ 0 → env.vmo_create ≠ ZX_OK →
      (SmcDispatcher.Create c env options k out).1 = env.vmo_create) ∧
    (env.shm_config.size ≠ 0 → env.vmo_create = ZX_OK → env.shm_config.use_cache = true →
      env.set_cache_policy ≠ ZX_OK →
      (SmcDispatcher.Create c env options k out).1 = env.set_cache_policy) ∧
    (env.shm_config.size ≠ 0 → env.vmo_create = ZX_OK →
      (env.shm_config.use_cache = true → env.set_cache_policy = ZX_OK) →
      env.alloc_ok = false →
      (SmcDispatcher.Create c env options k out).1 = ZX_ERR_NO_MEMORY) ∧
    ((SmcDispatcher.Create c env options k out).1 ≠ ZX_OK →
      (SmcDispatcher.Create c env options k out).2.1.smc_disp = none ∧
      (SmcDispatcher.Create c env options k out).2.1 = k ∧
      (SmcDispatcher.Create c env options k out).2.2 = out) := by
  refine ⟨?_, ?_, ?_, ?_, ?_⟩
  · intro h0
    simp [SmcDispatcher.Create, hempty, h0]
  · intro hsize hvmo
    simp [SmcDispatcher.Create, hempty, hsize, hvmo]
  · intro hsize hvmo huse hpol
    simp only [SmcDispatcher.Create, hempty, if_neg hsize, hvmo, ne_eq, not_true_eq_false,
      if_false]
    rw [if_pos ⟨huse, hpol⟩]
  · intro hsize hvmo hcache halloc
    have hc : ¬ (env.shm_config.use_cache = true ∧ env.set_cache_policy ≠ ZX_OK) :=
      fun h => h.2 (hcache h.1)
    simp only [SmcDispatcher.Create, hempty, if_neg hsize, hvmo, ne_eq, not_true_eq_false,
      if_false, halloc, if_true]
    rw [if_neg hc]
  · intro hfail
    rw [create_empty_failure c env options k out hempty hfail]
    exact ⟨hempty, rfl, rfl⟩

theorem create_failure_atomic_witness :
    (⟨none, [0, 0, 0, 0]⟩ : Kernel).smc_disp = none ∧
    (SmcDispatcher.Create sampleConfig
      { sampleCreateEnv with shm_config := { pa := 0x42000000, size := 0, use_cache := true } }
      7 ⟨none, [0, 0, 0, 0]⟩ sampleOut).1 = ZX_ERR_INTERNAL ∧
    (SmcDispatcher.Create sampleConfig { sampleCreateEnv with alloc_ok := false }
      7 ⟨none, [0, 0, 0, 0]⟩ sampleOut).1 = ZX_ERR_NO_MEMORY ∧
    (SmcDispatcher.Create sampleConfig { sampleCreateEnv with alloc_ok := false }
      7 ⟨none, [0, 0, 0, 0]⟩ sampleOut).2.1.smc_disp = none :=
  ⟨rfl,
   (create_failure_atomic sampleConfig
      { sampleCreateEnv with shm_config := { pa := 0x42000000, size := 0, use_cache := true } }
      7 ⟨none, [0, 0, 0, 0]⟩ sampleOut rfl).1 rfl,
   (create_failure_atomic sampleConfig { sampleCreateEnv with alloc_ok := false }
      7 ⟨none, [0, 0, 0, 0]⟩ sampleOut rfl).2.2.2.1 (by decide) rfl (fun _ => rfl) rfl,
   ((create_failure_atomic sampleConfig { sampleCreateEnv with alloc_ok := false }
      7 ⟨none, [0, 0, 0, 0]⟩ sampleOut rfl).2.2.2.2 (by decide)).1⟩

theorem create_ok_registers (c : Config) (env : CreateEnv) (options : Nat) (k : Kernel)
    (out : CreateOut) (hempty : k.smc_disp = none)
    (hok : (SmcDispatcher.Create c env options k out).1 = ZX_OK) :
    (SmcDispatcher.Create c env options k out).2.1.smc_disp.isSome = true := by
  simp only [SmcDispatcher.Create, hempty] at hok ⊢
  have h1 : ¬ (ZX_ERR_INTERNAL = ZX_OK) := by decide
  have h2 : ¬ (ZX_ERR_NO_MEMORY = ZX_OK) := by decide
  split_ifs at hok ⊢
  · exact absurd hok h1
  · rename_i _ h; exact absurd hok h
  · rename_i _ _ h; exact absurd hok h.2
  · exact absurd hok h2
  · rfl

theorem lifecycle_step_inv (c : Config) (s : Kernel × Bool) (ev : Lifecycle)
    (h : s.1.smc_disp.isSome = s.2) :
    (lifecycle_step c s ev).1.smc_disp.isSome = (lifecycle_step c s ev).2 := by
  cases ev with
  | destroy => rfl
  | create env options out =>
    simp only [lifecycle_step]
    cases hreg : s.1.smc_disp with
    | some d =>
      rw [create_live c env options s.1 out d hreg]
      have hne : ¬ (ZX_ERR_BAD_STATE = ZX_OK) := by decide
      rw [if_neg hne, ← h, hreg]
    | none =>
      by_cases hok : (SmcDispatcher.Create c env options s.1 out).1 = ZX_OK
      · rw [if_pos hok, create_ok_registers c env options s.1 out hreg hok]
      · rw [if_neg hok, create_empty_failure c env options s.1 out hreg hok, ← h]

theorem lifecycle_run_inv (c : Config) (events : List Lifecycle) :
    ∀ s : Kernel × Bool, s.1.smc_disp.isSome = s.2 →
      (lifecycle_run c s events).1.smc_disp.isSome = (lifecycle_run c s events).2 := by
  induction events with
  | nil => intro s h; exact h
  | cons ev rest ih =>
    intro s h
    simp only [lifecycle_run, List.foldl_cons]
    exact ih _ (lifecycle_step_inv c s ev h)

/-- C13. Registry lifecycle: over every sequence of `Create` calls and
destructions starting with an empty registry, the registry pointer is
non-null exactly between a successful `Create` and the destruction of the
dispatcher it created; after the destruction the registry is empty, and a
subsequent `Create` with non-zero shared-memory size, successful memory-object
construction (`VmObjectPhysical::Create` succeeds and the cacheable policy,
where requested, is applied) and successful allocation returns `ZX_OK`,
registers the new dispatcher and returns `ZX_DEFAULT_SMC_RIGHTS`. -/
theorem registry_lifecycle (c : Config) :
    (∀ (shm : List Nat) (events : List Lifecycle),
      (lifecycle_run c (⟨none, shm⟩, false) events).1.smc_disp.isSome =
        (lifecycle_run c (⟨none, shm⟩, false) events).2) ∧
    (∀ k : Kernel, (SmcDispatcher.dtor k).smc_disp = none) ∧
    (∀ (env : CreateEnv) (options : Nat) (k : Kernel) (out : CreateOut),
      env.shm_config.size ≠ 0 → env.vmo_create = ZX_OK →
      (env.shm_config.use_cache = true → env.set_cache_policy = ZX_OK) →
      env.alloc_ok = true →
      (SmcDispatcher.Create c env options (SmcDispatcher.dtor k) out).1 = ZX_OK ∧
      (SmcDispatcher.Create c env options (SmcDispatcher.dtor k) out).2.1.smc_disp =
        some (SmcDispatcher.ctor c options
          { ns_shm := { base_phys := env.shm_config.pa, size := env.shm_config.size,
                        use_cache := env.shm_config.use_cache } }) ∧
      (SmcDispatcher.Create c env options (SmcDispatcher.dtor k) out).2.2.dispatcher =
        (SmcDispatcher.Create c env options (SmcDispatcher.dtor k) out).2.1.smc_disp ∧
      (SmcDispatcher.Create c env options (SmcDispatcher.dtor k) out).2.2.rights =
        ZX_DEFAULT_SMC_RIGHTS) := by
  refine ⟨fun shm events => lifecycle_run_inv c events _ rfl, fun _ => rfl, ?_⟩
  intro env options k out hsize hvmo hcache halloc
  rw [create_empty_success c env options (SmcDispatcher.dtor k) out rfl hsize hvmo hcache halloc]
  exact ⟨rfl, rfl, rfl, rfl⟩

theorem registry_lifecycle_witness :
    (lifecycle_run sampleConfig (⟨none, [0, 0, 0, 0]⟩, false)
      [Lifecycle.create sampleCreateEnv 7 sampleOut, Lifecycle.create sampleCreateEnv 8 sampleOut,
       Lifecycle.destroy]).1.smc_disp.isSome =
      (lifecycle_run sampleConfig (⟨none, [0, 0, 0, 0]⟩, false)
      [Lifecycle.create sampleCreateEnv 7 sampleOut, Lifecycle.create sampleCreateEnv 8 sampleOut,
       Lifecycle.destroy]).2 ∧
    (sampleCreateEnv.shm_config.size ≠ 0 ∧ sampleCreateEnv.vmo_create = ZX_OK ∧
      sampleCreateEnv.set_cache_policy = ZX_OK ∧ sampleCreateEnv.alloc_ok = true) ∧
    (SmcDispatcher.Create sampleConfig sampleCreateEnv 9
      (SmcDispatcher.dtor ⟨some sampleDispatcher, [0, 0, 0, 0]⟩) sampleOut).1 = ZX_OK ∧
    (SmcDispatcher.Create sampleConfig sampleCreateEnv 9
      (SmcDispatcher.dtor ⟨some sampleDispatcher, [0, 0, 0, 0]⟩) sampleOut).2.2.rights =
        ZX_DEFAULT_SMC_RIGHTS :=
  ⟨(registry_lifecycle sampleConfig).1 _ _,
   ⟨by decide, rfl, rfl, rfl⟩,
   ((registry_lifecycle sampleConfig).2.2 sampleCreateEnv 9 ⟨some sampleDispatcher, [0, 0, 0, 0]⟩
     sampleOut (by decide) rfl (fun _ => rfl) rfl).1,
   ((registry_lifecycle sampleConfig).2.2 sampleCreateEnv 9 ⟨some sampleDispatcher, [0, 0, 0, 0]⟩
     sampleOut (by decide) rfl (fun _ => rfl) rfl).2.2.2⟩

/-! ## The per-CPU NOP channel -/

theorem getD_set_self {α : Type} (l : List α) (i : Nat) (x dflt : α) (h : i < l.length) :
    (l.set i x).getD i dflt = x := by
  simp [List.getD_eq_getElem?_getD, List.getElem?_set, h]

theorem getD_set_other {α : Type} (l : List α) (i j : Nat) (x dflt : α) (h : i ≠ j) :
    (l.set i x).getD j dflt = l.getD j dflt := by
  simp [List.getD_eq_getElem?_getD, List.getElem?_set, h]

theorem write_nop_invalid (c : Config) (d : SmcDispatcher) (cpu : Nat)
    (args : Option smc32_args_t) (hbad : c.SMP_MAX_CPUS ≤ cpu ∨ args = none) :
    d.WriteNopRequest c cpu args = (ZX_ERR_INVALID_ARGS, d) := by
  cases args with
  | none => rfl
  | some a =>
    have hcpu : ¬ cpu < c.SMP_MAX_CPUS := by
      rcases hbad with h | h
      · omega
      · cases h
    simp [SmcDispatcher.WriteNopRequest, is_valid_cpu_num, hcpu]

theorem write_nop_valid (c : Config) (d : SmcDispatcher) (cpu : Nat) (a : smc32_args_t)
    (hcpu : cpu < c.SMP_MAX_CPUS) :
    d.WriteNopRequest c cpu (some a) =
      (ZX_OK, { d with req_nop_args := d.req_nop_args.set cpu a,
                       req_nop_event_ := d.req_nop_event_.set cpu { signaled := true } }) := by
  simp [SmcDispatcher.WriteNopRequest, is_valid_cpu_num, hcpu, event_signal, event_signal_etc]

theorem read_nop_invalid (c : Config) (d : SmcDispatcher) (cpu : Nat)
    (args : Option smc32_args_t) (wake : Option Int)
    (hbad : c.SMP_MAX_CPUS ≤ cpu ∨ args = none) :
    d.ReadNopRequest c cpu args wake = .ok (ZX_ERR_INVALID_ARGS, d, args) := by
  cases args with
  | none => rfl
  | some out =>
    have hcpu : ¬ cpu < c.SMP_MAX_CPUS := by
      rcases hbad with h | h
      · omega
      · cases h
    simp [SmcDispatcher.ReadNopRequest, is_valid_cpu_num, hcpu]

theorem read_nop_pending (c : Config) (d : SmcDispatcher) (cpu : Nat) (out : smc32_args_t)
    (wake : Option Int) (hcpu : cpu < c.SMP_MAX_CPUS)
    (hev : (d.req_nop_event_.getD cpu (event_init false)).signaled = true) :
    d.ReadNopRequest c cpu (some out) wake =
      .ok (ZX_OK, { d with req_nop_event_ := d.req_nop_event_.set cpu { signaled := false } },
           some (d.req_nop_args.getD cpu zero_args)) := by
  have hv : is_valid_cpu_num c cpu = true := by simp [is_valid_cpu_num, hcpu]
  simp only [SmcDispatcher.ReadNopRequest, hv, Bool.true_eq_false, if_false,
    event_wait_deadline, hev, if_true, ne_eq, not_true_eq_false]

theorem main_calls_keep_nop (c : Config) (d : SmcDispatcher) :
    (∀ args, (d.NotifyUser c args).2.req_nop_args = d.req_nop_args ∧
      (d.NotifyUser c args).2.req_nop_event_ = d.req_nop_event_) ∧
    (∀ args r, d.ReadArgs c args = .ok r →
      r.2.1.req_nop_args = d.req_nop_args ∧ r.2.1.req_nop_event_ = d.req_nop_event_) ∧
    (∀ v, (d.SetResult c v).2.req_nop_args = d.req_nop_args ∧
      (d.SetResult c v).2.req_nop_event_ = d.req_nop_event_) ∧
    (∀ wake r, d.WaitForResult wake = .ok r →
      r.2.req_nop_args = d.req_nop_args ∧ r.2.req_nop_event_ = d.req_nop_event_) := by
  refine ⟨?_, ?_, ?_, ?_⟩
  · intro args
    unfold SmcDispatcher.NotifyUser
    split <;> exact ⟨rfl, rfl⟩
  · intro args r hr
    unfold SmcDispatcher.ReadArgs at hr
    split at hr
    · cases hr; exact ⟨rfl, rfl⟩
    · simp only at hr
      split at hr
      · split at hr
        · cases hr
        · cases hr; exact ⟨rfl, rfl⟩
      · cases hr; exact ⟨rfl, rfl⟩
  · intro v
    unfold SmcDispatcher.SetResult
    simp only
    split <;> exact ⟨rfl, rfl⟩
  · intro wake r hr
    unfold SmcDispatcher.WaitForResult at hr
    split at hr
    · cases hr
    · simp only at hr
      split at hr
      · cases hr
      · cases hr; exact ⟨rfl, rfl⟩

theorem step_wake_keeps_nop (c : Config) (d d1 : SmcDispatcher) (wake : Option Int)
    (call : Call) (hstep : step_wake c d wake call = some d1) :
    d1.req_nop_args = d.req_nop_args ∧ d1.req_nop_event_ = d.req_nop_event_ := by
  obtain ⟨hn, hr, hs, hw⟩ := main_calls_keep_nop c d
  cases call with
  | NotifyUser args =>
    simp only [step_wake, step, Option.some.injEq] at hstep
    rw [← hstep]; exact hn args
  | ReadArgs args =>
    simp only [step_wake, step] at hstep
    cases hres : d.ReadArgs c args with
    | error f => rw [hres] at hstep; cases hstep
    | ok r =>
      rw [hres] at hstep
      simp only [Option.some.injEq] at hstep
      rw [← hstep]; exact hr args r hres
  | SetResult v =>
    simp only [step_wake, step, Option.some.injEq] at hstep
    rw [← hstep]; exact hs v
  | WaitForResult =>
    simp only [step_wake] at hstep
    cases hres : d.WaitForResult wake with
    | error f => rw [hres] at hstep; cases hstep
    | ok r =>
      rw [hres] at hstep
      simp only [Option.some.injEq] at hstep
      rw [← hstep]; exact hw wake r hres

theorem last_post_cons (cpu : Nat) (acc : Option smc32_args_t) (call : NopCall)
    (rest : List NopCall) :
    last_post cpu acc (call :: rest) = last_post cpu (last_post cpu acc [call]) rest := by
  cases call with
  | post k args =>
    cases args with
    | none => rfl
    | some a => rfl
  | main call wake => rfl

theorem nop_step_inv (c : Config) (d d1 : SmcDispatcher) (cpu : Nat) (call : NopCall)
    (acc : Option smc32_args_t) (hcpu : cpu < c.SMP_MAX_CPUS) (hwf : d.SlotsWellFormed c)
    (hacc : ∀ A, acc = some A →
      d.req_nop_args.getD cpu zero_args = A ∧
      (d.req_nop_event_.getD cpu (event_init false)).signaled = true)
    (hstep : nop_step c d call = some d1) :
    d1.SlotsWellFormed c ∧
    ∀ A, last_post cpu acc [call] = some A →
      d1.req_nop_args.getD cpu zero_args = A ∧
      (d1.req_nop_event_.getD cpu (event_init false)).signaled = true := by
  cases call with
  | main call wake =>
    obtain ⟨h1, h2⟩ := step_wake_keeps_nop c d d1 wake call hstep
    refine ⟨?_, ?_⟩
    · unfold SmcDispatcher.SlotsWellFormed; rw [h1, h2]; exact hwf
    · intro A hA
      rw [h1, h2]
      exact hacc A hA
  | post k args =>
    simp only [nop_step, Option.some.injEq] at hstep
    cases args with
    | none =>
      rw [write_nop_invalid c d k none (Or.inr rfl)] at hstep
      rw [← hstep]
      exact ⟨hwf, fun A hA => hacc A hA⟩
    | some a =>
      by_cases hk : k < c.SMP_MAX_CPUS
      · rw [write_nop_valid c d k a hk] at hstep
        rw [← hstep]
        refine ⟨⟨?_, ?_⟩, ?_⟩
        · simp only [List.length_set]; exact hwf.1
        · simp only [List.length_set]; exact hwf.2
        · intro A hA
          simp only [last_post] at hA
          by_cases hkc : k = cpu
          · subst hkc
            rw [if_pos rfl] at hA
            simp only [Option.some.injEq] at hA
            subst hA
            exact ⟨getD_set_self _ _ _ _ (by rw [hwf.1]; exact hk),
              by rw [getD_set_self _ _ _ _ (by rw [hwf.2]; exact hk)]⟩
          · rw [if_neg hkc] at hA
            rw [getD_set_other _ _ _ _ _ hkc, getD_set_other _ _ _ _ _ hkc]
            exact hacc A hA
      · rw [write_nop_invalid c d k (some a) (Or.inl (by omega))] at hstep
        rw [← hstep]
        refine ⟨hwf, ?_⟩
        intro A hA
        simp only [last_post] at hA
        rw [if_neg (by omega)] at hA
        exact hacc A hA

theorem nop_run_inv (c : Config) (cpu : Nat) (hcpu : cpu < c.SMP_MAX_CPUS)
    (calls : List NopCall) :
    ∀ (d d1 : SmcDispatcher) (acc : Option smc32_args_t), d.SlotsWellFormed c →
      (∀ A, acc = some A →
        d.req_nop_args.getD cpu zero_args = A ∧
        (d.req_nop_event_.getD cpu (event_init false)).signaled = true) →
      nop_run c d calls = some d1 →
      ∀ A, last_post cpu acc calls = some A →
        d1.req_nop_args.getD cpu zero_args = A ∧
        (d1.req_nop_event_.getD cpu (event_init false)).signaled = true := by
  induction calls with
  | nil =>
    intro d d1 acc _ hacc hrun A hA
    simp only [nop_run, Option.some.injEq] at hrun
    rw [← hrun]
    exact hacc A hA
  | cons call rest ih =>
    intro d d1 acc hwf hacc hrun A hA
    simp only [nop_run] at hrun
    cases hs : nop_step c d call with
    | none => rw [hs] at hrun; cases hrun
    | some d2 =>
      rw [hs] at hrun
      rw [last_post_cons] at hA
      obtain ⟨hwf2, hacc2⟩ := nop_step_inv c d d2 cpu call acc hcpu hwf hacc hs
      exact ih d2 d1 _ hwf2 hacc2 hrun A hA

/-- C14. NOP post/take round trip: for every valid CPU index and every
sequence of calls (posts to any CPU, main-slot calls with any outcome of their
waits) that contains a successful `WriteNopRequest` on that CPU, the next
`ReadNopRequest` on it returns `ZX_OK`, consuming the pending wake signal,
with the output record equal to the argument record of the most recent post
to that CPU. -/
theorem nop_round_trip (c : Config) (d0 d : SmcDispatcher) (calls : List NopCall) (cpu : Nat)
    (A out : smc32_args_t) (wake : Option Int) (hwf : d0.SlotsWellFormed c)
    (hcpu : cpu < c.SMP_MAX_CPUS) (hrun : nop_run c d0 calls = some d)
    (hlast : last_post cpu none calls = some A) :
    d.ReadNopRequest c cpu (some out) wake =
      .ok (ZX_OK, { d with req_nop_event_ := d.req_nop_event_.set cpu { signaled := false } },
           some A) := by
  obtain ⟨hslot, hev⟩ :=
    nop_run_inv c cpu hcpu calls d0 d none hwf (fun A h => by cases h) hrun A hlast
  rw [read_nop_pending c d cpu out wake hcpu hev, hslot]

theorem nop_round_trip_witness :
    sampleDispatcher.SlotsWellFormed sampleConfig ∧ 1 < sampleConfig.SMP_MAX_CPUS ∧
    nop_run sampleConfig sampleDispatcher sampleNopCalls = some samplePosted ∧
    last_post 1 none sampleNopCalls = some ⟨0x3C000003, (3, 3, 3)⟩ ∧
    samplePosted.ReadNopRequest sampleConfig 1 (some ⟨0, (0, 0, 0)⟩) none =
      .ok (ZX_OK,
           { samplePosted with
             req_nop_event_ := samplePosted.req_nop_event_.set 1 { signaled := false } },
           some ⟨0x3C000003, (3, 3, 3)⟩) :=
  ⟨by decide, by decide, by decide, by decide,
   nop_round_trip sampleConfig sampleDispatcher samplePosted sampleNopCalls 1
     ⟨0x3C000003, (3, 3, 3)⟩ ⟨0, (0, 0, 0)⟩ none (by decide) (by decide) (by decide)
     (by decide)⟩

/-- C15. Per-CPU NOP independence: for CPU indices `other ≠ cpu`,
`WriteNopRequest(cpu, args)` leaves the slot and the wake signal of `other`
and the main request state (pending args, pending result, gate flag, signal
bits, result event) unchanged; and `NotifyUser`, `ReadArgs`, `SetResult` and
`WaitForResult` change no NOP slot and no NOP wake signal. -/
theorem nop_independence (c : Config) (d : SmcDispatcher) (cpu other : Nat)
    (args : Option smc32_args_t) (hne : other ≠ cpu) :
    ((d.WriteNopRequest c cpu args).2.req_nop_args[other]? = d.req_nop_args[other]? ∧
      (d.WriteNopRequest c cpu args).2.req_nop_event_[other]? = d.req_nop_event_[other]? ∧
      (d.WriteNopRequest c cpu args).2.smc_args = d.smc_args ∧
      (d.WriteNopRequest c cpu args).2.smc_result = d.smc_result ∧
      (d.WriteNopRequest c cpu args).2.can_serve_next_smc = d.can_serve_next_smc ∧
      (d.WriteNopRequest c cpu args).2.signals = d.signals ∧
      (d.WriteNopRequest c cpu args).2.result_event_ = d.result_event_) ∧
    (∀ a, (d.NotifyUser c a).2.req_nop_args = d.req_nop_args ∧
      (d.NotifyUser c a).2.req_nop_event_ = d.req_nop_event_) ∧
    (∀ a r, d.ReadArgs c a = .ok r →
      r.2.1.req_nop_args = d.req_nop_args ∧ r.2.1.req_nop_event_ = d.req_nop_event_) ∧
    (∀ v, (d.SetResult c v).2.req_nop_args = d.req_nop_args ∧
      (d.SetResult c v).2.req_nop_event_ = d.req_nop_event_) ∧
    (∀ wake r, d.WaitForResult wake = .ok r →
      r.2.req_nop_args = d.req_nop_args ∧ r.2.req_nop_event_ = d.req_nop_event_) := by
  refine ⟨?_, main_calls_keep_nop c d⟩
  cases args with
  | none => exact ⟨rfl, rfl, rfl, rfl, rfl, rfl, rfl⟩
  | some a =>
    by_cases hk : cpu < c.SMP_MAX_CPUS
    · rw [write_nop_valid c d cpu a hk]
      have h : ¬ cpu = other := fun h => hne h.symm
      refine ⟨?_, ?_, rfl, rfl, rfl, rfl, rfl⟩
      · simp [List.getElem?_set, h]
      · simp [List.getElem?_set, h]
    · rw [write_nop_invalid c d cpu (some a) (Or.inl (by omega))]
      exact ⟨rfl, rfl, rfl, rfl, rfl, rfl, rfl⟩

theorem nop_independence_witness :
    (1 : Nat) ≠ 0 ∧
    (sampleClaimed.WriteNopRequest sampleConfig 0 (some ⟨0x3C000003, (1, 1, 1)⟩)).1 = ZX_OK ∧
    (sampleClaimed.WriteNopRequest sampleConfig 0
        (some ⟨0x3C000003, (1, 1, 1)⟩)).2.req_nop_event_[1]? = sampleClaimed.req_nop_event_[1]? ∧
    (sampleClaimed.WriteNopRequest sampleConfig 0
        (some ⟨0x3C000003, (1, 1, 1)⟩)).2.req_nop_args[1]? = sampleClaimed.req_nop_args[1]? ∧
    (sampleClaimed.WriteNopRequest sampleConfig 0
        (some ⟨0x3C000003, (1, 1, 1)⟩)).2.signals = sampleClaimed.signals :=
  ⟨by decide, by decide,
   (nop_independence sampleConfig sampleClaimed 0 1 (some ⟨0x3C000003, (1, 1, 1)⟩)
     (by decide)).1.2.1,
   (nop_independence sampleConfig sampleClaimed 0 1 (some ⟨0x3C000003, (1, 1, 1)⟩)
     (by decide)).1.1,
   (nop_independence sampleConfig sampleClaimed 0 1 (some ⟨0x3C000003, (1, 1, 1)⟩)
     (by decide)).1.2.2.2.2.2.1⟩

/-- C16. NOP input validation: with a CPU index outside the supported range
(`cpu >= SMP_MAX_CPUS`) or a null argument record, `WriteNopRequest` and
`ReadNopRequest` return `ZX_ERR_INVALID_ARGS` with the whole dispatcher state
and the output record unchanged, whatever would release a wait (so no wait
takes place, no slot is written, no wake signal is raised or consumed);
`WriteNopRequest` with a valid index and present args returns `ZX_OK`. -/
theorem nop_validation (c : Config) (d : SmcDispatcher) (cpu : Nat)
    (args : Option smc32_args_t) (wake : Option Int) :
    (c.SMP_MAX_CPUS ≤ cpu ∨ args = none →
      d.WriteNopRequest c cpu args = (ZX_ERR_INVALID_ARGS, d) ∧
      d.ReadNopRequest c cpu args wake = .ok (ZX_ERR_INVALID_ARGS, d, args)) ∧
    (∀ a, cpu < c.SMP_MAX_CPUS → (d.WriteNopRequest c cpu (some a)).1 = ZX_OK) := by
  constructor
  · intro hbad
    exact ⟨write_nop_invalid c d cpu args hbad, read_nop_invalid c d cpu args wake hbad⟩
  · intro a hcpu
    rw [write_nop_valid c d cpu a hcpu]

theorem nop_validation_witness :
    (sampleConfig.SMP_MAX_CPUS ≤ 4 ∧
      samplePosted.WriteNopRequest sampleConfig 4 (some ⟨0x3C000003, (1, 1, 1)⟩) =
        (ZX_ERR_INVALID_ARGS, samplePosted) ∧
      samplePosted.ReadNopRequest sampleConfig 4 (some ⟨0, (0, 0, 0)⟩) none =
        .ok (ZX_ERR_INVALID_ARGS, samplePosted, some ⟨0, (0, 0, 0)⟩)) ∧
    (samplePosted.ReadNopRequest sampleConfig 1 none none =
      .ok (ZX_ERR_INVALID_ARGS, samplePosted, none)) ∧
    (3 < sampleConfig.SMP_MAX_CPUS ∧
      (samplePosted.WriteNopRequest sampleConfig 3 (some ⟨0x3C000003, (1, 1, 1)⟩)).1 = ZX_OK) :=
  ⟨⟨by decide,
    ((nop_validation sampleConfig samplePosted 4 (some ⟨0x3C000003, (1, 1, 1)⟩) none).1
      (Or.inl (by decide))).1,
    ((nop_validation sampleConfig samplePosted 4 (some ⟨0, (0, 0, 0)⟩) none).1
      (Or.inl (by decide))).2⟩,
   ((nop_validation sampleConfig samplePosted 1 none none).1 (Or.inr rfl)).2,
   ⟨by decide,
    (nop_validation sampleConfig samplePosted 3 none none).2 ⟨0x3C000003, (1, 1, 1)⟩
      (by decide)⟩⟩

/-- C18. NOP routing never propagates a post failure: for every non-null
argument record, with a dispatcher live `notify_nop_thread` returns `SM_OK`
(0) whether `WriteNopRequest` for the current CPU succeeds or returns
`ZX_ERR_INVALID_ARGS` (the CPU index being out of range), and the main request
state (pending args, pending result, gate flag, signal bits, result event) is
unchanged. -/
theorem nop_routing_ok (c : Config) (curr_cpu : Nat) (k : Kernel) (d : SmcDispatcher)
    (a : smc32_args_t) (hlive : k.smc_disp = some d) :
    (notify_nop_thread c curr_cpu k (some a)).1 = SM_OK ∧ SM_OK = 0 ∧
    (notify_nop_thread c curr_cpu k (some a)).2 =
      { k with smc_disp := some (d.WriteNopRequest c curr_cpu (some a)).2 } ∧
    ((d.WriteNopRequest c curr_cpu (some a)).2.smc_args = d.smc_args ∧
      (d.WriteNopRequest c curr_cpu (some a)).2.smc_result = d.smc_result ∧
      (d.WriteNopRequest c curr_cpu (some a)).2.can_serve_next_smc = d.can_serve_next_smc ∧
      (d.WriteNopRequest c curr_cpu (some a)).2.signals = d.signals ∧
      (d.WriteNopRequest c curr_cpu (some a)).2.result_event_ = d.result_event_) ∧
    (c.SMP_MAX_CPUS ≤ curr_cpu →
      (d.WriteNopRequest c curr_cpu (some a)).1 = ZX_ERR_INVALID_ARGS ∧
      (notify_nop_thread c curr_cpu k (some a)).2 = k) ∧
    (curr_cpu < c.SMP_MAX_CPUS → (d.WriteNopRequest c curr_cpu (some a)).1 = ZX_OK) := by
  have hk : ({ k with smc_disp := some d } : Kernel) = k := by
    cases k; simp only [Kernel.mk.injEq, and_true]; exact hlive.symm
  refine ⟨by simp [notify_nop_thread, hlive], rfl, by simp [notify_nop_thread, hlive], ?_, ?_, ?_⟩
  · by_cases hcpu : curr_cpu < c.SMP_MAX_CPUS
    · rw [write_nop_valid c d curr_cpu a hcpu]
      exact ⟨rfl, rfl, rfl, rfl, rfl⟩
    · rw [write_nop_invalid c d curr_cpu (some a) (Or.inl (by omega))]
      exact ⟨rfl, rfl, rfl, rfl, rfl⟩
  · intro hbad
    simp only [notify_nop_thread, hlive]
    rw [write_nop_invalid c d curr_cpu (some a) (Or.inl hbad)]
    exact ⟨rfl, hk⟩
  · intro hcpu
    rw [write_nop_valid c d curr_cpu a hcpu]

theorem nop_routing_ok_witness :
    (⟨some sampleClaimed, [0, 0, 0, 0]⟩ : Kernel).smc_disp = some sampleClaimed ∧
    (notify_nop_thread sampleConfig 1 ⟨some sampleClaimed, [0, 0, 0, 0]⟩
      (some ⟨0x3C000003, (1, 1, 1)⟩)).1 = SM_OK ∧
    (sampleConfig.SMP_MAX_CPUS ≤ 9 ∧
      (sampleClaimed.WriteNopRequest sampleConfig 9 (some ⟨0x3C000003, (1, 1, 1)⟩)).1 =
        ZX_ERR_INVALID_ARGS ∧
      (notify_nop_thread sampleConfig 9 ⟨some sampleClaimed, [0, 0, 0, 0]⟩
        (some ⟨0x3C000003, (1, 1, 1)⟩)) = (SM_OK, ⟨some sampleClaimed, [0, 0, 0, 0]⟩)) :=
  ⟨rfl,
   (nop_routing_ok sampleConfig 1 ⟨some sampleClaimed, [0, 0, 0, 0]⟩ sampleClaimed
     ⟨0x3C000003, (1, 1, 1)⟩ rfl).1,
   ⟨by decide,
    ((nop_routing_ok sampleConfig 9 ⟨some sampleClaimed, [0, 0, 0, 0]⟩ sampleClaimed
      ⟨0x3C000003, (1, 1, 1)⟩ rfl).2.2.2.2.1 (by decide)).1,
    Prod.ext
      (nop_routing_ok sampleConfig 9 ⟨some sampleClaimed, [0, 0, 0, 0]⟩ sampleClaimed
        ⟨0x3C000003, (1, 1, 1)⟩ rfl).1
      ((nop_routing_ok sampleConfig 9 ⟨some sampleClaimed, [0, 0, 0, 0]⟩ sampleClaimed
        ⟨0x3C000003, (1, 1, 1)⟩ rfl).2.2.2.2.1 (by decide)).2⟩⟩

/-! ## Failed waits -/

/-- C19, evaluated on the code. Submission A is claimed, its `WaitForResult`
ends by a failed wait (returning -7) and leaves SIGNALED asserted with the
gate open; submission B is then accepted; the service answers A with
`SetResult(42)`, which succeeds; the `WaitForResult` of B completes normally
and returns 42, the result deposited for A, although no `ReadArgs` returned
B and READABLE is still asserted for it. -/
theorem stale_result_returned :
    ∃ d1 d2 d3 d4 d5 d6 : SmcDispatcher,
      sampleDispatcher.NotifyUser sampleConfig (some ⟨0x32000014, (1, 2, 3)⟩) = (ZX_OK, d1) ∧
      d1.ReadArgs sampleConfig (some ⟨0, (0, 0, 0)⟩) =
        .ok (ZX_OK, d2, some ⟨0x32000014, (1, 2, 3)⟩) ∧
      d2.WaitForResult (some ZX_ERR_INTERNAL_INTR_KILLED) = .ok (SM_ERR_INTERNAL_FAILURE, d3) ∧
      d3.NotifyUser sampleConfig (some ⟨0x32000015, (4, 5, 6)⟩) = (ZX_OK, d4) ∧
      d4.SetResult sampleConfig 42 = (ZX_OK, d5) ∧
      d5.readable sampleConfig ∧
      d5.smc_args = some ⟨0x32000015, (4, 5, 6)⟩ ∧
      d5.WaitForResult none = .ok (42, d6) ∧
      d6.can_serve_next_smc = true ∧ d6.readable sampleConfig :=
  ⟨_, _, _, _, _, _, rfl, rfl, rfl, rfl, rfl, by decide, rfl, rfl, rfl, by decide⟩

/-- C20, evaluated on the code. After a successful `NotifyUser`, a
`WaitForResult` whose wait fails returns -7 and opens the gate while READABLE
stays asserted; after the request was claimed, it does so while SIGNALED
stays asserted: in neither case is the dispatcher Idle. A wait that completes
normally, on the answered request, does leave it Idle. -/
theorem failed_wait_not_idle :
    (∃ d1 d2 : SmcDispatcher,
      sampleDispatcher.NotifyUser sampleConfig (some ⟨0x32000014, (1, 2, 3)⟩) = (ZX_OK, d1) ∧
      d1.WaitForResult (some ZX_ERR_INTERNAL_INTR_KILLED) = .ok (SM_ERR_INTERNAL_FAILURE, d2) ∧
      d2.can_serve_next_smc = true ∧ d2.readable sampleConfig ∧ ¬ d2.Idle sampleConfig) ∧
    (∃ d2 : SmcDispatcher,
      sampleClaimed.WaitForResult (some ZX_ERR_INTERNAL_INTR_KILLED) =
        .ok (SM_ERR_INTERNAL_FAILURE, d2) ∧
      d2.can_serve_next_smc = true ∧ d2.signaled sampleConfig ∧ ¬ d2.Idle sampleConfig) ∧
    (∃ d2 : SmcDispatcher,
      (sampleClaimed.SetResult sampleConfig 42).2.WaitForResult
        (some ZX_ERR_INTERNAL_INTR_KILLED) = .ok (42, d2) ∧
      d2.Idle sampleConfig ∧ d2.result_event_.signaled = false) :=
  ⟨⟨_, _, rfl, rfl, rfl, by decide, by decide⟩,
   ⟨_, rfl, rfl, by decide, by decide⟩,
   ⟨_, rfl, by decide, rfl⟩⟩

/-! ## Depositing a result -/

/-- C21, as the code has it. For every dispatcher in the Signaled state and
every value `v`, `SetResult(v)` returns `ZX_OK`, stores `v` as the pending
result, raises the result signal, and withdraws SIGNALED (READABLE stays
withdrawn), but leaves the gate closed: a `NotifyUser` issued right after the
deposit returns `ZX_ERR_SHOULD_WAIT` without effect. The dispatcher is Idle
once `WaitForResult` has consumed the signal and returned `v`; a `NotifyUser`
issued then is accepted. -/
theorem set_result_amended (c : Config) (hc : c.WellFormed) (d : SmcDispatcher)
    (hsig : d.Signaled c) (v : Int) (args : Option smc32_args_t) (wake : Option Int) :
    (d.SetResult c v).1 = ZX_OK ∧
    (d.SetResult c v).2.smc_result = v ∧
    (d.SetResult c v).2.result_event_.signaled = true ∧
    ¬ (d.SetResult c v).2.readable c ∧ ¬ (d.SetResult c v).2.signaled c ∧
    (d.SetResult c v).2.can_serve_next_smc = false ∧
    (d.SetResult c v).2.NotifyUser c args = (ZX_ERR_SHOULD_WAIT, (d.SetResult c v).2) ∧
    ∃ d2 : SmcDispatcher,
      (d.SetResult c v).2.WaitForResult wake = .ok (v, d2) ∧
      d2.Idle c ∧ d2.result_event_.signaled = false ∧
      (d2.NotifyUser c args).1 = ZX_OK := by
  obtain ⟨hcan, hr, hs⟩ := hsig
  obtain ⟨h1, h2, h3, h4, h5, h6⟩ := set_signaled c hc d hs hr v
  have hcan2 : (d.SetResult c v).2.can_serve_next_smc = false := by rw [h3, hcan]
  have hw := wait_signaled (d.SetResult c v).2 hcan2 h6 wake
  rw [h2] at hw
  have hidle : SmcDispatcher.Idle c
      { (d.SetResult c v).2 with
        result_event_ := { signaled := false }, can_serve_next_smc := true } :=
    ⟨rfl, h4, h5⟩
  exact ⟨h1, h2, h6, h4, h5, hcan2, notify_closed_gate c _ hcan2 args,
    _, hw, hidle, rfl, (notify_idle c hc _ hidle args).1⟩

theorem set_result_amended_witness :
    sampleConfig.WellFormed ∧ sampleClaimed.Signaled sampleConfig ∧
    (sampleClaimed.SetResult sampleConfig 42).1 = ZX_OK ∧
    (sampleClaimed.SetResult sampleConfig 42).2.smc_result = 42 ∧
    (sampleClaimed.SetResult sampleConfig 42).2.can_serve_next_smc = false ∧
    (sampleClaimed.SetResult sampleConfig 42).2.NotifyUser sampleConfig
        (some ⟨0x32000015, (4, 5, 6)⟩) =
      (ZX_ERR_SHOULD_WAIT, (sampleClaimed.SetResult sampleConfig 42).2) :=
  ⟨by decide, by decide,
   (set_result_amended sampleConfig (by decide) sampleClaimed (by decide) 42
     (some ⟨0x32000015, (4, 5, 6)⟩) none).1,
   (set_result_amended sampleConfig (by decide) sampleClaimed (by decide) 42
     (some ⟨0x32000015, (4, 5, 6)⟩) none).2.1,
   (set_result_amended sampleConfig (by decide) sampleClaimed (by decide) 42
     (some ⟨0x32000015, (4, 5, 6)⟩) none).2.2.2.2.2.1,
   (set_result_amended sampleConfig (by decide) sampleClaimed (by decide) 42
     (some ⟨0x32000015, (4, 5, 6)⟩) none).2.2.2.2.2.2.1⟩

/-- C21, as stated, fails: on the claimed request `SetResult(42)` returns
`ZX_OK` and leaves `can_serve_next_smc` false, so the dispatcher is not Idle,
and the `NotifyUser` issued right after it returns `ZX_ERR_SHOULD_WAIT`, not
`ZX_OK`. -/
theorem set_result_counterexample :
    sampleClaimed.Signaled sampleConfig ∧
    (sampleClaimed.SetResult sampleConfig 42).1 = ZX_OK ∧
    (sampleClaimed.SetResult sampleConfig 42).2.can_serve_next_smc = false ∧
    ¬ (sampleClaimed.SetResult sampleConfig 42).2.Idle sampleConfig ∧
    ((sampleClaimed.SetResult sampleConfig 42).2.NotifyUser sampleConfig
        (some ⟨0x32000015, (4, 5, 6)⟩)).1 = ZX_ERR_SHOULD_WAIT ∧
    ¬ ((sampleClaimed.SetResult sampleConfig 42).2.NotifyUser sampleConfig
        (some ⟨0x32000015, (4, 5, 6)⟩)).1 = ZX_OK := by
  refine ⟨by decide, by decide, by decide, by decide, by decide, by decide⟩

/-! ## Self-test routing -/

theorem verify_shm_code (fuel : Nat) (map_ok : Bool) (d : SmcDispatcher) (shm : List Nat)
    (r : Int × Option (Nat × Nat × Nat)) (h : verify_shm fuel map_ok d shm = .ok r) :
    r.1 = 0 ∨ r.1 = SM_ERR_INTERNAL_FAILURE := by
  unfold verify_shm at h
  simp only at h
  split at h
  · cases h; exact Or.inr rfl
  · split at h
    · cases h
    · cases h; exact Or.inl rfl
    · cases h; exact Or.inr rfl

theorem verify_shm_returns (fuel : Nat) (map_ok : Bool) (d : SmcDispatcher) (shm : List Nat)
    (hsize : d.smc_info.ns_shm.size < 2 ^ 32) (hfuel : d.smc_info.ns_shm.size < fuel) :
    ∃ r, verify_shm fuel map_ok d shm = .ok r := by
  cases map_ok with
  | false => exact ⟨(SM_ERR_INTERNAL_FAILURE, none), by simp [verify_shm]⟩
  | true =>
    by_cases hall : ∀ i, i < d.smc_info.ns_shm.size → shm.getD i 0 = i % 256
    · exact ⟨_, verify_shm_pass fuel d shm hsize hfuel hall⟩
    · obtain ⟨k, hk, hbad, hmin⟩ := first_mismatch _ shm hall
      exact ⟨_, verify_shm_fail fuel d shm hsize hfuel k hk hbad hmin⟩

theorem write_shm_code (map_ok : Bool) (d : SmcDispatcher) (shm : List Nat) :
    (write_shm map_ok d shm).1 = 0 ∨ (write_shm map_ok d shm).1 = SM_ERR_INTERNAL_FAILURE := by
  cases map_ok with
  | false => exact Or.inr (by simp [write_shm])
  | true => exact Or.inl (by simp [write_shm])

theorem invoke_smc_test_code (fuel : Nat) (map_ok : Bool) (d : SmcDispatcher) (shm : List Nat)
    (a : smc32_args_t) (r : Int × List Nat) (h : invoke_smc_test fuel map_ok d shm a = .ok r) :
    r.1 = 0 ∨ r.1 = SM_ERR_INTERNAL_FAILURE ∨ r.1 = SM_ERR_UNDEFINED_SMC := by
  unfold invoke_smc_test at h
  split at h
  · cases h
    rcases write_shm_code map_ok d shm with h0 | h7
    · exact Or.inl h0
    · exact Or.inr (Or.inl h7)
  · split at h
    · cases hv : verify_shm fuel map_ok d shm with
      | error f => rw [hv] at h; cases h
      | ok rv =>
        rw [hv] at h
        cases h
        rcases verify_shm_code fuel map_ok d shm rv hv with h0 | h7
        · exact Or.inl h0
        · exact Or.inr (Or.inl h7)
    · cases h; exact Or.inr (Or.inr rfl)

theorem invoke_smc_test_returns (fuel : Nat) (map_ok : Bool) (d : SmcDispatcher)
    (shm : List Nat) (a : smc32_args_t) (hsize : d.smc_info.ns_shm.size < 2 ^ 32)
    (hfuel : d.smc_info.ns_shm.size < fuel) :
    ∃ r, invoke_smc_test fuel map_ok d shm a = .ok r := by
  unfold invoke_smc_test
  split
  · exact ⟨_, rfl⟩
  · split
    · obtain ⟨rv, hv⟩ := verify_shm_returns fuel map_ok d shm hsize hfuel
      rw [hv]
      exact ⟨_, rfl⟩
    · exact ⟨_, rfl⟩

/-- C22. Self-test routing bypasses the dispatcher: for every non-null
argument record whose call number has entity field 61 and every state of the
live dispatcher, `notify_smc_service` returns what `invoke_smc_test` returns:
never `SM_ERR_BUSY`, and the undefined-SMC code for every call number other
than `SMC_SC_WRITE_SHM` and `SMC_SC_VERIFY_SHM`; the registry keeps the
dispatcher with its state unchanged (pending args, pending result, gate flag,
signal bits, result event); and with a 32-bit region size and loop steps
granted the call returns. -/
theorem test_routing_bypasses_dispatcher (c : Config) (env : Env) (k : Kernel)
    (d : SmcDispatcher) (a : smc32_args_t) (hlive : k.smc_disp = some d)
    (hent : SMC_ENTITY a.smc_nr = SMC_ENTITY_TEST) :
    (notify_smc_service c env k (some a) =
      match invoke_smc_test env.fuel env.map_ok d k.shm a with
      | .error f => .error f
      | .ok r => .ok (r.1, { k with shm := r.2 })) ∧
    (∀ r, notify_smc_service c env k (some a) = .ok r →
      r.1 ≠ SM_ERR_BUSY ∧ r.2.smc_disp = some d) ∧
    (a.smc_nr ≠ SMC_SC_WRITE_SHM → a.smc_nr ≠ SMC_SC_VERIFY_SHM →
      notify_smc_service c env k (some a) = .ok (SM_ERR_UNDEFINED_SMC, k)) ∧
    (d.smc_info.ns_shm.size < 2 ^ 32 → d.smc_info.ns_shm.size < env.fuel →
      ∃ r, notify_smc_service c env k (some a) = .ok r) := by
  have hroute : notify_smc_service c env k (some a) =
      match invoke_smc_test env.fuel env.map_ok d k.shm a with
      | .error f => .error f
      | .ok r => .ok (r.1, { k with shm := r.2 }) := by
    simp only [notify_smc_service, hlive, hent, if_true]
  refine ⟨hroute, ?_, ?_, ?_⟩
  · intro r hr
    rw [hroute] at hr
    cases ht : invoke_smc_test env.fuel env.map_ok d k.shm a with
    | error f => rw [ht] at hr; cases hr
    | ok rt =>
      rw [ht] at hr
      cases hr
      refine ⟨?_, hlive⟩
      rcases invoke_smc_test_code _ _ _ _ _ rt ht with h | h | h
      · rw [h]; decide
      · rw [h]; decide
      · rw [h]; decide
  · intro hw hv
    rw [hroute]
    simp only [invoke_smc_test, if_neg hw, if_neg hv]
  · intro hsize hfuel
    obtain ⟨rt, ht⟩ := invoke_smc_test_returns env.fuel env.map_ok d k.shm a hsize hfuel
    rw [hroute, ht]
    exact ⟨_, rfl⟩

theorem test_routing_bypasses_dispatcher_witness :
    (⟨some sampleClaimed, [0, 0, 0, 0]⟩ : Kernel).smc_disp = some sampleClaimed ∧
    sampleClaimed.can_serve_next_smc = false ∧
    SMC_ENTITY SMC_SC_WRITE_SHM = SMC_ENTITY_TEST ∧
    SMC_ENTITY 0xBD000001 = SMC_ENTITY_TEST ∧
    notify_smc_service sampleConfig sampleEnv ⟨some sampleClaimed, [0, 0, 0, 0]⟩
        (some ⟨SMC_SC_WRITE_SHM, (0, 0, 0)⟩) =
      .ok (0, ⟨some sampleClaimed, [0xaa, 0xab, 0xa8, 0xa9]⟩) ∧
    notify_smc_service sampleConfig sampleEnv ⟨some sampleClaimed, [0, 0, 0, 0]⟩
        (some ⟨0xBD000001, (0, 0, 0)⟩) =
      .ok (SM_ERR_UNDEFINED_SMC, ⟨some sampleClaimed, [0, 0, 0, 0]⟩) :=
  ⟨rfl, by decide, by decide, by decide,
   (test_routing_bypasses_dispatcher sampleConfig sampleEnv ⟨some sampleClaimed, [0, 0, 0, 0]⟩
     sampleClaimed ⟨SMC_SC_WRITE_SHM, (0, 0, 0)⟩ rfl (by decide)).1.trans rfl,
   (test_routing_bypasses_dispatcher sampleConfig sampleEnv ⟨some sampleClaimed, [0, 0, 0, 0]⟩
     sampleClaimed ⟨0xBD000001, (0, 0, 0)⟩ rfl (by decide)).2.2.1 (by decide) (by decide)⟩

end Smc
